import Mathlib

/-!
Verification of the Struktos.js core dependency-injection runtime
(`@struktos/core`): the service-identifier model, descriptor registry,
resolution engine with lifetime rules and cycle detection, request scopes
with LIFO disposal, and the ambient request context (data map plus
cancellation protocol).

The definitions below are a shallow embedding of the TypeScript sources:

 * `domain/di/service-identifier.ts`  — identifiers, names, keys
 * `domain/di/service-lifetime.ts`    — lifetimes and `canDependOn`
 * `domain/di/service-descriptor.ts`  — descriptors and `validateDescriptor`
 * `domain/di/errors.ts`              — the DI error taxonomy
 * `infrastructure/di/service-provider.ts` — `ServiceProvider`
 * `infrastructure/di/scoped-container.ts` — `ScopedContainer`
 * `infrastructure/di/service-collection.ts` — `ServiceCollection`
 * `domain/context/context-key.ts` and
   `infrastructure/context/context-store.ts`, `context-proxy.ts`
   — `ContextKey`, the context store and `RequestContext`

JavaScript object identity is modelled by tagging every created instance
with a fresh allocation counter (`nextId`); JavaScript `Map`s are
insertion-ordered association lists; exceptions are `Except`; the
unbounded recursion of `resolveInternal` is driven by an explicit fuel
parameter (`resolveFuel`), one unit per nesting level of the dependency
graph, so that every definition is executable and kernel-reducible.
-/

/-- `ServiceLifetime` from `service-lifetime.ts`: Singleton, Scoped, Transient. -/
inductive ServiceLifetime where
  | Singleton
  | Scoped
  | Transient
deriving DecidableEq, Repr

/-- `getLifetimePriority`: higher number = shorter lifetime
(Singleton 0, Scoped 1, Transient 2). -/
def getLifetimePriority : ServiceLifetime → Nat
  | .Singleton => 0
  | .Scoped => 1
  | .Transient => 2

/-- `canDependOn(from, to)`: `fromPriority >= toPriority` — a longer-lived
service cannot depend on a shorter-lived one. -/
def canDependOn (l1 l2 : ServiceLifetime) : Bool :=
  decide (getLifetimePriority l2 ≤ getLifetimePriority l1)

/-- `ServiceIdentifier` from `service-identifier.ts`: a string, a Symbol
(unique `symId`, plus its description), or a constructor reference
(identified by the class name, as `getServiceKey` does). -/
inductive ServiceIdentifier where
  | str (s : String)
  | sym (symId : Nat) (description : String)
  | ctorN (name : String)
deriving DecidableEq, Repr

/-- `getServiceName`: `Symbol(desc)` for symbols, the string itself for
strings, the class name (`AnonymousClass` when empty) for constructors. -/
def getServiceName : ServiceIdentifier → String
  | .sym _ description => "Symbol(" ++ description ++ ")"
  | .str s => s
  | .ctorN name => if name = "" then "AnonymousClass" else name

/-- Registration keys produced by `getServiceKey`: symbols stay themselves,
strings get the `str:` prefixing, constructors the `ctor:` prefixing —
modelled as three disjoint constructors. -/
inductive ServiceKey where
  | symK (symId : Nat)
  | strK (s : String)
  | ctorK (name : String)
deriving DecidableEq, Repr

/-- `getServiceKey` from `service-identifier.ts`. -/
def getServiceKey : ServiceIdentifier → ServiceKey
  | .sym symId _ => .symK symId
  | .str s => .strK s
  | .ctorN name => .ctorK (if name = "" then "Anonymous" else name)

/-- `SERVICE_PROVIDER_TOKEN = Symbol('IServiceProvider')`. -/
def SERVICE_PROVIDER_TOKEN : ServiceIdentifier := .sym 1000 "IServiceProvider"

/-- `SERVICE_SCOPE_FACTORY_TOKEN = Symbol('IServiceScopeFactory')`. -/
def SERVICE_SCOPE_FACTORY_TOKEN : ServiceIdentifier := .sym 1001 "IServiceScopeFactory"

/-- A constructor (concrete class): its name, its `static inject`
dependency list, whether instances expose `dispose()` (for
`isDisposable`), and whether the constructor body throws
(`some msg` = throws `Error(msg)`). -/
structure ConstructorSpec where
  name : String
  inject : List ServiceIdentifier
  disposable : Bool
  ctorThrows : Option String
deriving DecidableEq, Repr

/-- A registered factory function: the identifiers it resolves through the
resolver it receives (in order), whether it then throws
(`some msg` = throws `Error(msg)`) instead of returning, and whether the
returned instance exposes `dispose()`. -/
structure FactorySpec where
  deps : List ServiceIdentifier
  fail : Option String
  disposable : Bool
deriving DecidableEq, Repr

/-- `IServiceDescriptor` from `service-descriptor.ts`:
identifier, lifetime, and optional `implementationType` / `factory`
(exactly one is present for a validated descriptor). -/
structure ServiceDescriptor where
  serviceIdentifier : ServiceIdentifier
  lifetime : ServiceLifetime
  implementationType : Option ConstructorSpec
  factory : Option FactorySpec
deriving DecidableEq, Repr

/-- `createClassDescriptor` from `service-descriptor.ts`. -/
def createClassDescriptor (identifier : ServiceIdentifier) (lifetime : ServiceLifetime)
    (implementationType : ConstructorSpec) : ServiceDescriptor :=
  { serviceIdentifier := identifier, lifetime := lifetime,
    implementationType := some implementationType, factory := none }

/-- `createFactoryDescriptor` from `service-descriptor.ts`. -/
def createFactoryDescriptor (identifier : ServiceIdentifier) (lifetime : ServiceLifetime)
    (factory : FactorySpec) : ServiceDescriptor :=
  { serviceIdentifier := identifier, lifetime := lifetime,
    implementationType := none, factory := some factory }

/-- The DI error taxonomy of `domain/di/errors.ts`, plus `error msg` for a
plain JavaScript `Error(msg)` (used for factory/constructor exceptions and
internal `throw new Error(...)` sites). `CreationFailed` carries the
original error as its `cause`. -/
inductive JSError where
  | NotRegistered (identifier : ServiceIdentifier) (resolutionPath : List String)
  | CircularDependency (identifier : ServiceIdentifier) (resolutionPath : List String)
  | ScopeMismatch (dependent dependency : ServiceIdentifier)
      (dependentLifetime dependencyLifetime : ServiceLifetime)
      (resolutionPath : List String)
  | NoActiveScope (identifier : ServiceIdentifier) (resolutionPath : List String)
  | CreationFailed (identifier : ServiceIdentifier) (cause : JSError)
      (resolutionPath : List String)
  | ScopeDisposed
  | ContainerSealed
  | error (msg : String)
deriving DecidableEq, Repr

/-- The `instanceof` tests in `createInstance`'s catch clause: the four
error classes that are rethrown unwrapped. -/
def isDiagnostic : JSError → Bool
  | .NotRegistered _ _ => true
  | .CircularDependency _ _ => true
  | .ScopeMismatch _ _ _ _ _ => true
  | .NoActiveScope _ _ => true
  | _ => false

/-- A value produced by resolution: a created instance (tagged with its
allocation id, modelling object identity, and whether it is disposable),
or one of the two objects the `ServiceProvider` constructor pre-seeds into
the singleton cache (the provider itself and the scope-factory object). -/
inductive Resolved where
  | inst (instId : Nat) (disposable : Bool)
  | providerSelf
  | scopeFactory
deriving DecidableEq, Repr

/-- `isDisposable`: whether the value has a `dispose` method (the provider
itself does; the plain scope-factory object does not). -/
def isDisposable : Resolved → Bool
  | .inst _ d => d
  | .providerSelf => true
  | .scopeFactory => false

/-- Association-list lookup, modelling `Map.get` (keys are unique by
construction, so first match is the match). -/
def mapFind {κ α : Type} [DecidableEq κ] : List (κ × α) → κ → Option α
  | [], _ => none
  | (k', v) :: rest, k => if k' = k then some v else mapFind rest k

/-- `Map.has`. -/
def mapHas {κ α : Type} [DecidableEq κ] (m : List (κ × α)) (k : κ) : Bool :=
  (mapFind m k).isSome

/-- `Map.set`: replace in place when the key exists (JavaScript `Map`
keeps the original insertion position), append otherwise. -/
def mapSet {κ α : Type} [DecidableEq κ] : List (κ × α) → κ → α → List (κ × α)
  | [], k, v => [(k, v)]
  | (k', v') :: rest, k, v =>
    if k' = k then (k, v) :: rest else (k', v') :: mapSet rest k v

/-- `Map.delete` (dropping the entry; the returned Boolean is taken from
`mapHas` where the caller needs it). -/
def mapDelete {κ α : Type} [DecidableEq κ] : List (κ × α) → κ → List (κ × α)
  | [], _ => []
  | (k', v) :: rest, k => if k' = k then rest else (k', v) :: mapDelete rest k

/-- In-place update of the value stored under a key (mutation of the
object the map points to). -/
def updateAList {κ α : Type} [DecidableEq κ] : List (κ × α) → κ → (α → α) → List (κ × α)
  | [], _, _ => []
  | (k', v) :: rest, k, f =>
    if k' = k then (k, f v) :: rest else (k', v) :: updateAList rest k f

/-- The mutable fields of one `ScopedContainer`: the scoped instance
cache, the `disposed` flag and the `disposables` list
(`{instance, key}` pairs, in creation order). -/
structure ScopeState where
  scopedCache : List (ServiceKey × Resolved)
  disposed : Bool
  disposables : List (Resolved × ServiceKey)
deriving DecidableEq, Repr

/-- A freshly constructed `ScopedContainer`. -/
def freshScopeState : ScopeState :=
  { scopedCache := [], disposed := false, disposables := [] }

/-- The DI-relevant view of the ambient `RequestContext`: the value stored
under `SCOPE_CONTEXT_KEY` (a reference to a `ScopedContainer`, if any). -/
structure AmbientCtx where
  scopeRef : Option Nat
deriving DecidableEq, Repr

/-- `IBuildOptions` (all fields optional at the `build` call site). -/
structure IBuildOptions where
  validateScopes : Option Bool := none
  eagerSingletons : Option Bool := none
  allowScopedWithoutScope : Option Bool := none
deriving DecidableEq, Repr

/-- `Required<IBuildOptions>` as normalized by the `ServiceProvider`
constructor. -/
structure BuildOptions where
  validateScopes : Bool
  eagerSingletons : Bool
  allowScopedWithoutScope : Bool
deriving DecidableEq, Repr

/-- The `?? true` / `?? false` defaulting in the `ServiceProvider`
constructor. -/
def normalizeOptions (options : Option IBuildOptions) : BuildOptions :=
  { validateScopes := (options.bind (·.validateScopes)).getD true,
    eagerSingletons := (options.bind (·.eagerSingletons)).getD false,
    allowScopedWithoutScope := (options.bind (·.allowScopedWithoutScope)).getD false }

/-- The world state threaded through resolution: the provider's fields
(`descriptors`, `options`, `singletonCache`, `disposed`), the allocator of
fresh object identities (`nextId`), the table of live `ScopedContainer`
objects (`scopes`, with its own allocator `nextScopeId`), and the ambient
`RequestContext` (`none` outside any `run`). -/
structure DIState where
  descriptors : List (ServiceKey × ServiceDescriptor)
  options : BuildOptions
  singletonCache : List (ServiceKey × Resolved)
  nextId : Nat
  scopes : List (Nat × ScopeState)
  nextScopeId : Nat
  ambient : Option AmbientCtx
  disposed : Bool
deriving DecidableEq, Repr

/-- In-place mutation of one `ScopedContainer` object. -/
def updateScope (s : DIState) (scopeId : Nat) (f : ScopeState → ScopeState) : DIState :=
  { s with scopes := updateAList s.scopes scopeId f }

/-- The type of `resolveInternal`-shaped functions:
state → identifier → resolution stack → result. A `ResolveFn` stands for
the recursive reference a dependency resolution makes back into
`ServiceProvider.resolveInternal`. -/
def ResolveFn : Type :=
  DIState → ServiceIdentifier → List String → Except JSError (Resolved × DIState)

/-- The `dependencies.map((dep) => this.resolveInternal(dep, stack))` loop
shared by `createFromConstructor` and by factories resolving their inputs
through the resolver of `createResolver`: resolve each identifier in
order, threading the state. -/
def resolveDepsF (prev : ResolveFn) (s : DIState) (deps : List ServiceIdentifier)
    (stack : List String) : Except JSError DIState :=
  match deps with
  | [] => .ok s
  | dep :: rest =>
    match prev s dep stack with
    | .error e => .error e
    | .ok (_, s') => resolveDepsF prev s' rest stack

/-- `descriptor.factory(this.createResolver(newStack))` for a factory
described by a `FactorySpec`: the factory resolves its inputs through the
resolver (each call is `resolveInternal` on the shared `newStack`), then
either throws `Error(msg)` or returns a fresh instance. -/
def runFactoryF (prev : ResolveFn) (s : DIState) (f : FactorySpec)
    (newStack : List String) : Except JSError (Resolved × DIState) :=
  match resolveDepsF prev s f.deps newStack with
  | .error e => .error e
  | .ok s' =>
    match f.fail with
    | some msg => .error (.error msg)
    | none => .ok (.inst s'.nextId f.disposable, { s' with nextId := s'.nextId + 1 })

/-- `validateDependencyScopes` from `service-provider.ts`: for each
declared dependency with a registered descriptor, fail with
`ScopeMismatchError` when `canDependOn` rejects the lifetime pair;
unregistered dependencies are skipped (caught later during resolution). -/
def validateDependencyScopes (descriptors : List (ServiceKey × ServiceDescriptor))
    (descriptor : ServiceDescriptor) (dependencies : List ServiceIdentifier)
    (resolutionStack : List String) : Except JSError Unit :=
  match dependencies with
  | [] => .ok ()
  | dep :: rest =>
    match mapFind descriptors (getServiceKey dep) with
    | none => validateDependencyScopes descriptors descriptor rest resolutionStack
    | some depDescriptor =>
      if canDependOn descriptor.lifetime depDescriptor.lifetime then
        validateDependencyScopes descriptors descriptor rest resolutionStack
      else
        .error (.ScopeMismatch descriptor.serviceIdentifier dep descriptor.lifetime
          depDescriptor.lifetime resolutionStack)

/-- `createFromConstructor` from `service-provider.ts`: read the `static
inject` list, validate dependency scopes when `validateScopes` is on,
resolve each dependency in declaration order, then run the constructor
(which either throws or yields a fresh instance). -/
def createFromConstructorF (prev : ResolveFn) (s : DIState) (c : ConstructorSpec)
    (descriptor : ServiceDescriptor) (resolutionStack : List String) :
    Except JSError (Resolved × DIState) :=
  let dependencies := c.inject
  match (if s.options.validateScopes then
          validateDependencyScopes s.descriptors descriptor dependencies resolutionStack
        else .ok ()) with
  | .error e => .error e
  | .ok _ =>
    match resolveDepsF prev s dependencies resolutionStack with
    | .error e => .error e
    | .ok s' =>
      match c.ctorThrows with
      | some msg => .error (.error msg)
      | none => .ok (.inst s'.nextId c.disposable, { s' with nextId := s'.nextId + 1 })

/-- `createInstance` from `service-provider.ts`: push the service name on
the stack, run the factory (if present) or the constructor path, and in
the catch clause rethrow `NotRegistered` / `CircularDependency` /
`ScopeMismatch` / `NoActiveScope` unwrapped while wrapping every other
exception as `ServiceCreationError` with the original error as cause and
the pre-push resolution stack. -/
def createInstanceF (prev : ResolveFn) (s : DIState) (descriptor : ServiceDescriptor)
    (resolutionStack : List String) : Except JSError (Resolved × DIState) :=
  let name := getServiceName descriptor.serviceIdentifier
  let newStack := resolutionStack ++ [name]
  let attempt :=
    match descriptor.factory with
    | some f => runFactoryF prev s f newStack
    | none =>
      match descriptor.implementationType with
      | some c => createFromConstructorF prev s c descriptor newStack
      | none => .error (.error ("No factory or implementation type for " ++ name))
  match attempt with
  | .ok r => .ok r
  | .error e =>
    if isDiagnostic e then .error e
    else .error (.CreationFailed descriptor.serviceIdentifier e resolutionStack)

/-- `resolveSingleton` from `service-provider.ts`: return the cached value
when present, otherwise create and cache. -/
def resolveSingletonF (prev : ResolveFn) (s : DIState) (descriptor : ServiceDescriptor)
    (resolutionStack : List String) : Except JSError (Resolved × DIState) :=
  let key := getServiceKey descriptor.serviceIdentifier
  match mapFind s.singletonCache key with
  | some v => .ok (v, s)
  | none =>
    match createInstanceF prev s descriptor resolutionStack with
    | .error e => .error e
    | .ok (created, s') =>
      .ok (created, { s' with singletonCache := mapSet s'.singletonCache key created })

/-- `ScopedContainer.resolveScoped` from `scoped-container.ts`: return the
scope-cached value when present, otherwise create through the root
provider, cache in this scope, and track for disposal when the instance
is disposable. -/
def scopeResolveScopedF (prev : ResolveFn) (s : DIState) (scopeId : Nat)
    (descriptor : ServiceDescriptor) (resolutionStack : List String) :
    Except JSError (Resolved × DIState) :=
  match mapFind s.scopes scopeId with
  | none => .error (.error "dangling scope reference")
  | some sc =>
    let key := getServiceKey descriptor.serviceIdentifier
    match mapFind sc.scopedCache key with
    | some v => .ok (v, s)
    | none =>
      match createInstanceF prev s descriptor resolutionStack with
      | .error e => .error e
      | .ok (created, s') =>
        let s'' := updateScope s' scopeId (fun sc' =>
          let sc2 := { sc' with scopedCache := mapSet sc'.scopedCache key created }
          if isDisposable created then
            { sc2 with disposables := sc2.disposables ++ [(created, key)] }
          else sc2)
        .ok (created, s'')

/-- `ServiceProvider.resolveScoped` from `service-provider.ts`: with no
ambient context, either degrade to a transient creation
(`allowScopedWithoutScope`) or fail `NoActiveScopeError`; with a context,
reuse the scope stored under `SCOPE_CONTEXT_KEY` or auto-create one and
store it, then delegate to the scope's `resolveScoped`. -/
def provResolveScopedF (prev : ResolveFn) (s : DIState) (descriptor : ServiceDescriptor)
    (resolutionStack : List String) : Except JSError (Resolved × DIState) :=
  match s.ambient with
  | none =>
    if s.options.allowScopedWithoutScope then
      createInstanceF prev s descriptor resolutionStack
    else
      .error (.NoActiveScope descriptor.serviceIdentifier resolutionStack)
  | some ctx =>
    match ctx.scopeRef with
    | some scopeId => scopeResolveScopedF prev s scopeId descriptor resolutionStack
    | none =>
      let scopeId := s.nextScopeId
      let s1 := { s with
        scopes := mapSet s.scopes scopeId freshScopeState,
        nextScopeId := scopeId + 1,
        ambient := some { scopeRef := some scopeId } }
      scopeResolveScopedF prev s1 scopeId descriptor resolutionStack

/-- `ServiceProvider.resolveInternal` from `service-provider.ts`: first
the circular-dependency check against the resolution stack (by service
NAME), then the descriptor lookup (by service KEY), then the dispatch on
the descriptor's lifetime. -/
def resolveInternalF (prev : ResolveFn) : ResolveFn := fun s identifier resolutionStack =>
  let key := getServiceKey identifier
  let name := getServiceName identifier
  if resolutionStack.contains name then
    .error (.CircularDependency identifier resolutionStack)
  else
    match mapFind s.descriptors key with
    | none => .error (.NotRegistered identifier resolutionStack)
    | some descriptor =>
      match descriptor.lifetime with
      | .Singleton => resolveSingletonF prev s descriptor resolutionStack
      | .Scoped => provResolveScopedF prev s descriptor resolutionStack
      | .Transient => createInstanceF prev s descriptor resolutionStack

/-- `resolveInternal` closed under its own recursion, with explicit fuel:
level `fuel + 1` resolves dependencies at level `fuel`. The registry is
finite and the stack check stops repeated names, so any concrete
resolution succeeds for every sufficiently large fuel; fuel exhaustion
surfaces as a plain error that no theorem below ever treats as a result. -/
def resolveFuel : Nat → ResolveFn
  | 0 => fun _ _ _ => .error (.error "resolution fuel exhausted")
  | fuel + 1 => resolveInternalF (resolveFuel fuel)

/-- `ServiceProvider.resolveInternal` at a given recursion budget. -/
def resolveInternal (fuel : Nat) : ResolveFn :=
  resolveInternalF (resolveFuel fuel)

/-- `ServiceProvider.createInstance` at a given recursion budget. -/
def createInstance (fuel : Nat) (s : DIState) (descriptor : ServiceDescriptor)
    (resolutionStack : List String) : Except JSError (Resolved × DIState) :=
  createInstanceF (resolveFuel fuel) s descriptor resolutionStack

/-- `ScopedContainer.resolveScoped` at a given recursion budget. -/
def scopeResolveScoped (fuel : Nat) (s : DIState) (scopeId : Nat)
    (descriptor : ServiceDescriptor) (resolutionStack : List String) :
    Except JSError (Resolved × DIState) :=
  scopeResolveScopedF (resolveFuel fuel) s scopeId descriptor resolutionStack

/-- `ServiceProvider.resolve`: the public entry point — guard against a
disposed provider, then `resolveInternal` with a fresh resolution stack. -/
def resolveProvider (fuel : Nat) (s : DIState) (identifier : ServiceIdentifier) :
    Except JSError (Resolved × DIState) :=
  if s.disposed then .error (.error "ServiceProvider has been disposed")
  else resolveInternal fuel s identifier []

/-- The body of `createScope`'s create-new branch: construct a fresh
`ScopedContainer` and store it in the ambient context under
`SCOPE_CONTEXT_KEY`. -/
def createScopeNew (s : DIState) : Except JSError (Nat × DIState) :=
  let scopeId := s.nextScopeId
  .ok (scopeId, { s with
    scopes := mapSet s.scopes scopeId freshScopeState,
    nextScopeId := scopeId + 1,
    ambient := some { scopeRef := some scopeId } })

/-- `ServiceProvider.createScope` from `service-provider.ts`: fail
`NoActiveScopeError` without an ambient context; reuse the context's
stored scope when it exists and is not disposed; otherwise create a new
one and store it in the context. -/
def createScope (s : DIState) : Except JSError (Nat × DIState) :=
  match s.ambient with
  | none => .error (.NoActiveScope (.sym 0 "(scope creation)") [])
  | some ctx =>
    match ctx.scopeRef with
    | some scopeId =>
      match mapFind s.scopes scopeId with
      | some sc => if sc.disposed then createScopeNew s else .ok (scopeId, s)
      | none => createScopeNew s
    | none => createScopeNew s

/-- `ScopedContainer.dispose` from `scoped-container.ts`: a no-op when the
`disposed` flag is already set; otherwise set the flag, invoke `dispose()`
on the tracked disposables from the last created to the first (any error
is caught and logged, never thrown), and clear the caches. The returned
list is the sequence of instances whose `dispose()` was invoked, in
invocation order. -/
def disposeScope (s : DIState) (scopeId : Nat) : List Resolved × DIState :=
  match mapFind s.scopes scopeId with
  | none => ([], s)
  | some sc =>
    if sc.disposed then ([], s)
    else
      let calls := sc.disposables.reverse.filterMap
        (fun entry => if isDisposable entry.1 then some entry.1 else none)
      (calls, updateScope s scopeId (fun sc' =>
        { sc' with disposed := true, scopedCache := [], disposables := [] }))

/-- The `createEagerSingletons` loop: `resolveSingleton` for every
Singleton descriptor, iterating the registry snapshot. -/
def createEagerSingletonsAux (fuel : Nat) :
    List (ServiceKey × ServiceDescriptor) → DIState → Except JSError DIState
  | [], s => .ok s
  | (_, d) :: rest, s =>
    if d.lifetime = ServiceLifetime.Singleton then
      match resolveSingletonF (resolveFuel fuel) s d [] with
      | .error e => .error e
      | .ok (_, s') => createEagerSingletonsAux fuel rest s'
    else createEagerSingletonsAux fuel rest s

/-- `ServiceProvider.createEagerSingletons`. -/
def createEagerSingletons (fuel : Nat) (s : DIState) : Except JSError DIState :=
  createEagerSingletonsAux fuel s.descriptors s

/-- `validateScopeDependencies` from `service-provider.ts`: for every
class-based descriptor in the registry, validate its `static inject` list
with an empty resolution stack. -/
def validateScopeDependenciesAux (full : List (ServiceKey × ServiceDescriptor)) :
    List (ServiceKey × ServiceDescriptor) → Except JSError Unit
  | [] => .ok ()
  | (_, d) :: rest =>
    match d.implementationType with
    | some c =>
      match validateDependencyScopes full d c.inject [] with
      | .error e => .error e
      | .ok _ => validateScopeDependenciesAux full rest
    | none => validateScopeDependenciesAux full rest

/-- `ServiceProvider.validateScopeDependencies` over the whole registry. -/
def validateScopeDependencies (descriptors : List (ServiceKey × ServiceDescriptor)) :
    Except JSError Unit :=
  validateScopeDependenciesAux descriptors descriptors

/-- The `ServiceProvider` constructor: normalize the options, pre-seed the
singleton cache with the provider itself under `SERVICE_PROVIDER_TOKEN`
and the scope-factory object under `SERVICE_SCOPE_FACTORY_TOKEN`, run the
build-time scope validation when `validateScopes` is on, and create eager
singletons when requested. -/
def createProvider (fuel : Nat) (descriptors : List (ServiceKey × ServiceDescriptor))
    (options : Option IBuildOptions) : Except JSError DIState :=
  let opts := normalizeOptions options
  let s0 : DIState := {
    descriptors := descriptors,
    options := opts,
    singletonCache :=
      mapSet (mapSet [] (getServiceKey SERVICE_PROVIDER_TOKEN) .providerSelf)
        (getServiceKey SERVICE_SCOPE_FACTORY_TOKEN) .scopeFactory,
    nextId := 0, scopes := [], nextScopeId := 0, ambient := none, disposed := false }
  match (if opts.validateScopes then validateScopeDependencies descriptors else .ok ()) with
  | .error e => .error e
  | .ok _ =>
    if opts.eagerSingletons then createEagerSingletons fuel s0 else .ok s0

/-- Entering `RequestContext.run`: the fresh context store carries no
`SCOPE_CONTEXT_KEY` binding, so the ambient scope reference starts
empty. -/
def runAmbient (s : DIState) : DIState :=
  { s with ambient := some { scopeRef := none } }

/-- `ServiceCollection` from `service-collection.ts`: the registration
map and the `sealed` flag set by `build`. -/
structure ServiceCollection where
  descriptors : List (ServiceKey × ServiceDescriptor)
  sealedFlag : Bool
deriving DecidableEq, Repr

/-- A fresh `new ServiceCollection()`. -/
def ServiceCollection.empty : ServiceCollection :=
  { descriptors := [], sealedFlag := false }

/-- `ensureNotSealed`: throw `ContainerSealedError` once sealed. -/
def ServiceCollection.ensureNotSealed (sc : ServiceCollection) : Except JSError Unit :=
  if sc.sealedFlag then .error .ContainerSealed else .ok ()

/-- `validateDescriptor` from `service-descriptor.ts`: exactly one of
`implementationType` / `factory` must be present. -/
def validateDescriptor (d : ServiceDescriptor) : Except JSError Unit :=
  let hasImplementation := d.implementationType.isSome
  let hasFactory := d.factory.isSome
  if !hasImplementation && !hasFactory then
    .error (.error "descriptor must have either implementationType or factory")
  else if hasImplementation && hasFactory then
    .error (.error "descriptor cannot have both implementationType and factory")
  else .ok ()

/-- `ServiceCollection.register`: seal check first, then descriptor
validation, then `descriptors.set` (last write wins). -/
def ServiceCollection.register (sc : ServiceCollection) (d : ServiceDescriptor) :
    Except JSError ServiceCollection :=
  match sc.ensureNotSealed with
  | .error e => .error e
  | .ok _ =>
    match validateDescriptor d with
    | .error e => .error e
    | .ok _ =>
      .ok { sc with descriptors := mapSet sc.descriptors (getServiceKey d.serviceIdentifier) d }

/-- `addSingleton(identifier, implementation)`. -/
def ServiceCollection.addSingleton (sc : ServiceCollection) (identifier : ServiceIdentifier)
    (implementation : ConstructorSpec) : Except JSError ServiceCollection :=
  sc.register (createClassDescriptor identifier .Singleton implementation)

/-- `addScoped(identifier, implementation)`. -/
def ServiceCollection.addScoped (sc : ServiceCollection) (identifier : ServiceIdentifier)
    (implementation : ConstructorSpec) : Except JSError ServiceCollection :=
  sc.register (createClassDescriptor identifier .Scoped implementation)

/-- `addTransient(identifier, implementation)`. -/
def ServiceCollection.addTransient (sc : ServiceCollection) (identifier : ServiceIdentifier)
    (implementation : ConstructorSpec) : Except JSError ServiceCollection :=
  sc.register (createClassDescriptor identifier .Transient implementation)

/-- `addSingletonFactory(identifier, factory)`. -/
def ServiceCollection.addSingletonFactory (sc : ServiceCollection)
    (identifier : ServiceIdentifier) (factory : FactorySpec) : Except JSError ServiceCollection :=
  sc.register (createFactoryDescriptor identifier .Singleton factory)

/-- `addScopedFactory(identifier, factory)`. -/
def ServiceCollection.addScopedFactory (sc : ServiceCollection)
    (identifier : ServiceIdentifier) (factory : FactorySpec) : Except JSError ServiceCollection :=
  sc.register (createFactoryDescriptor identifier .Scoped factory)

/-- `addTransientFactory(identifier, factory)`. -/
def ServiceCollection.addTransientFactory (sc : ServiceCollection)
    (identifier : ServiceIdentifier) (factory : FactorySpec) : Except JSError ServiceCollection :=
  sc.register (createFactoryDescriptor identifier .Transient factory)

/-- `ServiceCollection.has` — a plain map lookup (the source performs no
seal check here). -/
def ServiceCollection.has (sc : ServiceCollection) (identifier : ServiceIdentifier) : Bool :=
  mapHas sc.descriptors (getServiceKey identifier)

/-- `ServiceCollection.getDescriptors` — the registered descriptors (no
seal check in the source). -/
def ServiceCollection.getDescriptors (sc : ServiceCollection) : List ServiceDescriptor :=
  sc.descriptors.map (·.2)

/-- `ServiceCollection.getDescriptor` — a plain map lookup (no seal check
in the source). -/
def ServiceCollection.getDescriptor (sc : ServiceCollection)
    (identifier : ServiceIdentifier) : Option ServiceDescriptor :=
  mapFind sc.descriptors (getServiceKey identifier)

/-- `ServiceCollection.remove`: seal check, then `descriptors.delete`
(returning the deletion Boolean). -/
def ServiceCollection.remove (sc : ServiceCollection) (identifier : ServiceIdentifier) :
    Except JSError (Bool × ServiceCollection) :=
  match sc.ensureNotSealed with
  | .error e => .error e
  | .ok _ =>
    let key := getServiceKey identifier
    .ok (mapHas sc.descriptors key, { sc with descriptors := mapDelete sc.descriptors key })

/-- `ServiceCollection.clear`: seal check, then `descriptors.clear`. -/
def ServiceCollection.clear (sc : ServiceCollection) : Except JSError ServiceCollection :=
  match sc.ensureNotSealed with
  | .error e => .error e
  | .ok _ => .ok { sc with descriptors := [] }

/-- `ServiceCollection.build`: set the `sealed` flag, copy the descriptor
map (`new Map(this.descriptors)`), and hand the copy to the
`ServiceProvider` constructor. Returns the sealed collection together
with the constructor's outcome. -/
def ServiceCollection.build (sc : ServiceCollection) (options : Option IBuildOptions)
    (fuel : Nat) : ServiceCollection × Except JSError DIState :=
  ({ sc with sealedFlag := true }, createProvider fuel sc.descriptors options)

/-- JavaScript values stored in a context, with `undef` for `undefined`
(a `Map` entry can hold `undefined` while the key is still present). -/
inductive JSValue where
  | undef
  | str (s : String)
  | num (n : Nat)
  | boolV (b : Bool)
deriving DecidableEq, Repr

/-- A context key as accepted by `RequestContext.get`/`set`: a raw string,
or a `ContextKey` object (`context-key.ts`) with its `id` and — only when
one was declared at construction — its `defaultValue` (the constructor
assigns the property only for a non-undefined option). -/
inductive CtxKey where
  | strKey (s : String)
  | typed (id : String) (defaultValue : Option JSValue)
deriving DecidableEq, Repr

/-- `resolveKeyId` from `context-store.ts`. -/
def resolveKeyId : CtxKey → String
  | .strKey s => s
  | .typed id _ => id

/-- A cancellation callback (identified by function identity, as the
`Set` in the store deduplicates by); `cbThrows` records whether invoking
it throws (the source catches and logs such errors). -/
structure CancelCallback where
  cbId : Nat
  cbThrows : Bool
deriving DecidableEq, Repr

/-- `IContextStore` from `context-store.ts`: the data map, the ordered
deduplicated callback set, and the monotone `cancelled` flag. -/
structure ContextStore where
  data : List (String × JSValue)
  cancelCallbacks : List CancelCallback
  cancelled : Bool
deriving DecidableEq, Repr

/-- The `for (const [key, value] of Object.entries(...))` loops of
`createContextStore`, `cloneContextStore` and `setAll`: `set` every entry
whose value is not `undefined`, skip the rest. -/
def setDefinedEntries (data : List (String × JSValue)) :
    List (String × JSValue) → List (String × JSValue)
  | [] => data
  | (key, value) :: rest =>
    setDefinedEntries (if value ≠ JSValue.undef then mapSet data key value else data) rest

/-- `createContextStore` from `context-store.ts`. -/
def createContextStore (initialData : List (String × JSValue)) : ContextStore :=
  { data := setDefinedEntries [] initialData, cancelCallbacks := [], cancelled := false }

/-- `cloneContextStore` from `context-store.ts`: copied data plus merged
additional data (skipping `undefined`), fresh callbacks, reset
`cancelled`. -/
def cloneContextStore (source : ContextStore) (additionalData : List (String × JSValue)) :
    ContextStore :=
  { data := setDefinedEntries source.data additionalData,
    cancelCallbacks := [], cancelled := false }

/-- `RequestContext.get`: read the data map (absent and stored-undefined
both read as `undefined`), then fall back to the typed key's
`defaultValue` when the read is `undefined` and the key declares one. -/
def ctxGet (store : ContextStore) (key : CtxKey) : JSValue :=
  let value := match mapFind store.data (resolveKeyId key) with
    | some v => v
    | none => JSValue.undef
  match key with
  | .typed _ (some d) => if value = JSValue.undef then d else value
  | _ => value

/-- `RequestContext.set`: an unconditional `data.set`, storing `undefined`
like any other value. -/
def ctxSet (store : ContextStore) (key : CtxKey) (value : JSValue) : ContextStore :=
  { store with data := mapSet store.data (resolveKeyId key) value }

/-- `RequestContext.has`. -/
def ctxHas (store : ContextStore) (key : CtxKey) : Bool :=
  mapHas store.data (resolveKeyId key)

/-- `RequestContext.delete`. -/
def ctxDelete (store : ContextStore) (key : CtxKey) : ContextStore :=
  { store with data := mapDelete store.data (resolveKeyId key) }

/-- `RequestContext.setAll`: set every entry whose value is not
`undefined`. -/
def ctxSetAll (store : ContextStore) (entries : List (String × JSValue)) : ContextStore :=
  { store with data := setDefinedEntries store.data entries }

/-- `RequestContext.clone`. -/
def ctxClone (store : ContextStore) (additionalData : List (String × JSValue)) : ContextStore :=
  cloneContextStore store additionalData

/-- `RequestContext.cancel`: return immediately when already cancelled;
otherwise set the flag, invoke every registered callback in registration
order — each call wrapped in its own try/catch, so a throwing callback
(`cbThrows`) is logged and the remaining callbacks still run — and clear
the callback set. The returned list is the sequence of callbacks that
were invoked, in invocation order. -/
def cancel (store : ContextStore) : List CancelCallback × ContextStore :=
  if store.cancelled then ([], store)
  else
    (store.cancelCallbacks,
      { store with cancelled := true, cancelCallbacks := [] })

/-- `RequestContext.onCancel`: when already cancelled, invoke the callback
immediately (with the same per-call try/catch) and register nothing;
otherwise add it to the `Set` (deduplicated, registration order kept).
The returned list is the sequence of immediately invoked callbacks. -/
def onCancel (store : ContextStore) (callback : CancelCallback) :
    List CancelCallback × ContextStore :=
  if store.cancelled then ([callback], store)
  else
    ([], { store with cancelCallbacks :=
      if callback ∈ store.cancelCallbacks then store.cancelCallbacks
      else store.cancelCallbacks ++ [callback] })

/-- The unsubscribe closure returned by `onCancel`:
`cancelCallbacks.delete(callback)`. -/
def offCancel (store : ContextStore) (callback : CancelCallback) : ContextStore :=
  { store with cancelCallbacks := store.cancelCallbacks.filter (· ≠ callback) }

theorem mapFind_mapSet_self {κ α : Type} [DecidableEq κ] (m : List (κ × α)) (k : κ) (v : α) :
    mapFind (mapSet m k v) k = some v := by
  induction m with
  | nil => simp [mapSet, mapFind]
  | cons p rest ih =>
    obtain ⟨k', v'⟩ := p
    by_cases h : k' = k
    · simp [mapSet, mapFind, h]
    · simp [mapSet, mapFind, h, ih]

theorem mapFind_mapSet_ne {κ α : Type} [DecidableEq κ] (m : List (κ × α)) (k i : κ) (v : α)
    (h : k ≠ i) : mapFind (mapSet m k v) i = mapFind m i := by
  induction m with
  | nil => simp [mapSet, mapFind, h]
  | cons p rest ih =>
    obtain ⟨k', v'⟩ := p
    by_cases hk : k' = k
    · subst hk
      simp [mapSet, mapFind, h]
    · by_cases hi : k' = i
      · simp [mapSet, mapFind, hk, hi, Ne.symm h]
      · simp [mapSet, mapFind, hk, hi, ih]

theorem mapFind_mapSet_isSome {κ α : Type} [DecidableEq κ] (m : List (κ × α)) (k i : κ)
    (v : α) (h : (mapFind m i).isSome = true) :
    (mapFind (mapSet m k v) i).isSome = true := by
  by_cases hk : k = i
  · subst hk
    simp [mapFind_mapSet_self]
  · rw [mapFind_mapSet_ne m k i v hk]
    exact h

theorem mapFind_updateAList_self {κ α : Type} [DecidableEq κ] (m : List (κ × α)) (k : κ)
    (f : α → α) : mapFind (updateAList m k f) k = (mapFind m k).map f := by
  induction m with
  | nil => simp [updateAList, mapFind]
  | cons p rest ih =>
    obtain ⟨k', v'⟩ := p
    by_cases h : k' = k
    · simp [updateAList, mapFind, h]
    · simp [updateAList, mapFind, h, ih]

theorem mapFind_updateAList_isSome {κ α : Type} [DecidableEq κ] (m : List (κ × α)) (k i : κ)
    (f : α → α) : (mapFind (updateAList m k f) i).isSome = (mapFind m i).isSome := by
  induction m with
  | nil => simp [updateAList]
  | cons p rest ih =>
    obtain ⟨k', v'⟩ := p
    by_cases hk : k' = k
    · subst hk
      by_cases hi : k' = i
      · subst hi
        simp [updateAList, mapFind]
      · simp [updateAList, mapFind, hi]
    · by_cases hi : k' = i
      · subst hi
        simp [updateAList, mapFind, hk]
      · simp [updateAList, mapFind, hk, hi, ih]

theorem filterMap_all_some {α β : Type} (f : α → Option β) (g : α → β) (l : List α)
    (h : ∀ x ∈ l, f x = some (g x)) : l.filterMap f = l.map g := by
  induction l with
  | nil => simp
  | cons x rest ih =>
    rw [List.filterMap_cons, h x (List.mem_cons_self x rest), List.map_cons,
      ih (fun y hy => h y (List.mem_cons_of_mem x hy))]

/-- The state facts every successful resolution preserves: the fresh-id
allocator never decreases, the descriptor map and options are read-only,
and live scope objects stay live. -/
def ResolveInv (r : ResolveFn) : Prop :=
  ∀ s identifier stack res s', r s identifier stack = .ok (res, s') →
    s.nextId ≤ s'.nextId ∧ s'.descriptors = s.descriptors ∧ s'.options = s.options ∧
    ∀ scopeId, (mapFind s.scopes scopeId).isSome = true →
      (mapFind s'.scopes scopeId).isSome = true

theorem resolveDepsF_inv {prev : ResolveFn} (hp : ResolveInv prev) :
    ∀ (deps : List ServiceIdentifier) (s : DIState) (stack : List String) (s' : DIState),
      resolveDepsF prev s deps stack = .ok s' →
      s.nextId ≤ s'.nextId ∧ s'.descriptors = s.descriptors ∧ s'.options = s.options ∧
      ∀ scopeId, (mapFind s.scopes scopeId).isSome = true →
        (mapFind s'.scopes scopeId).isSome = true := by
  intro deps
  induction deps with
  | nil =>
    intro s stack s' h
    simp only [resolveDepsF, Except.ok.injEq] at h
    subst h
    exact ⟨Nat.le_refl _, rfl, rfl, fun _ hx => hx⟩
  | cons d rest ih =>
    intro s stack s' h
    simp only [resolveDepsF] at h
    cases hc : prev s d stack with
    | error e => rw [hc] at h; exact absurd h (by simp)
    | ok p =>
      obtain ⟨res1, s1⟩ := p
      rw [hc] at h
      have h1 := hp s d stack res1 s1 hc
      have h2 := ih s1 stack s' h
      exact ⟨Nat.le_trans h1.1 h2.1, h2.2.1.trans h1.2.1, h2.2.2.1.trans h1.2.2.1,
        fun i hi => h2.2.2.2 i (h1.2.2.2 i hi)⟩

theorem runFactoryF_alloc {prev : ResolveFn} (hp : ResolveInv prev) (s : DIState)
    (f : FactorySpec) (stk : List String) (res : Resolved) (s' : DIState)
    (h : runFactoryF prev s f stk = .ok (res, s')) :
    ∃ i, res = .inst i f.disposable ∧ s.nextId ≤ i ∧ s'.nextId = i + 1 ∧
      s'.descriptors = s.descriptors ∧ s'.options = s.options ∧
      ∀ scopeId, (mapFind s.scopes scopeId).isSome = true →
        (mapFind s'.scopes scopeId).isSome = true := by
  simp only [runFactoryF] at h
  cases hd : resolveDepsF prev s f.deps stk with
  | error e => rw [hd] at h; exact absurd h (by simp)
  | ok s1 =>
    rw [hd] at h
    have h1 := resolveDepsF_inv hp f.deps s stk s1 hd
    cases hf : f.fail with
    | some msg => rw [hf] at h; exact absurd h (by simp)
    | none =>
      rw [hf] at h
      simp only [Except.ok.injEq, Prod.mk.injEq] at h
      obtain ⟨hres, hs⟩ := h
      subst hs
      exact ⟨s1.nextId, hres.symm, h1.1, rfl, h1.2.1, h1.2.2.1, h1.2.2.2⟩

theorem createFromConstructorF_alloc {prev : ResolveFn} (hp : ResolveInv prev) (s : DIState)
    (c : ConstructorSpec) (d : ServiceDescriptor) (stk : List String) (res : Resolved)
    (s' : DIState) (h : createFromConstructorF prev s c d stk = .ok (res, s')) :
    ∃ i, res = .inst i c.disposable ∧ s.nextId ≤ i ∧ s'.nextId = i + 1 ∧
      s'.descriptors = s.descriptors ∧ s'.options = s.options ∧
      ∀ scopeId, (mapFind s.scopes scopeId).isSome = true →
        (mapFind s'.scopes scopeId).isSome = true := by
  simp only [createFromConstructorF] at h
  cases hv : (if s.options.validateScopes then
      validateDependencyScopes s.descriptors d c.inject stk else .ok ()) with
  | error e => rw [hv] at h; exact absurd h (by simp)
  | ok u =>
    rw [hv] at h
    cases hd : resolveDepsF prev s c.inject stk with
    | error e => rw [hd] at h; exact absurd h (by simp)
    | ok s1 =>
      rw [hd] at h
      have h1 := resolveDepsF_inv hp c.inject s stk s1 hd
      cases hc : c.ctorThrows with
      | some msg => rw [hc] at h; exact absurd h (by simp)
      | none =>
        rw [hc] at h
        simp only [Except.ok.injEq, Prod.mk.injEq] at h
        obtain ⟨hres, hs⟩ := h
        subst hs
        exact ⟨s1.nextId, hres.symm, h1.1, rfl, h1.2.1, h1.2.2.1, h1.2.2.2⟩

theorem createInstanceF_alloc {prev : ResolveFn} (hp : ResolveInv prev) (s : DIState)
    (d : ServiceDescriptor) (stk : List String) (res : Resolved) (s' : DIState)
    (h : createInstanceF prev s d stk = .ok (res, s')) :
    ∃ i b, res = .inst i b ∧ s.nextId ≤ i ∧ s'.nextId = i + 1 ∧
      s'.descriptors = s.descriptors ∧ s'.options = s.options ∧
      ∀ scopeId, (mapFind s.scopes scopeId).isSome = true →
        (mapFind s'.scopes scopeId).isSome = true := by
  simp only [createInstanceF] at h
  split at h
  · rename_i r heq
    simp only [Except.ok.injEq] at h
    subst h
    split at heq
    · rename_i f hf
      obtain ⟨i, h1, h2, h3, h4, h5, h6⟩ :=
        runFactoryF_alloc hp s f (stk ++ [getServiceName d.serviceIdentifier]) res s' heq
      exact ⟨i, f.disposable, h1, h2, h3, h4, h5, h6⟩
    · rename_i hf
      split at heq
      · rename_i c hc
        obtain ⟨i, h1, h2, h3, h4, h5, h6⟩ :=
          createFromConstructorF_alloc hp s c d
            (stk ++ [getServiceName d.serviceIdentifier]) res s' heq
        exact ⟨i, c.disposable, h1, h2, h3, h4, h5, h6⟩
      · exact absurd heq (by simp)
  · rename_i e heq
    split at h <;> exact absurd h (by simp)

theorem resolveSingletonF_inv {prev : ResolveFn} (hp : ResolveInv prev) (s : DIState)
    (d : ServiceDescriptor) (stk : List String) (res : Resolved) (s' : DIState)
    (h : resolveSingletonF prev s d stk = .ok (res, s')) :
    s.nextId ≤ s'.nextId ∧ s'.descriptors = s.descriptors ∧ s'.options = s.options ∧
    ∀ scopeId, (mapFind s.scopes scopeId).isSome = true →
      (mapFind s'.scopes scopeId).isSome = true := by
  simp only [resolveSingletonF] at h
  split at h
  · simp only [Except.ok.injEq, Prod.mk.injEq] at h
    obtain ⟨h1, h2⟩ := h
    subst h2
    exact ⟨Nat.le_refl _, rfl, rfl, fun _ hx => hx⟩
  · split at h
    · exact absurd h (by simp)
    · rename_i created s1 heq
      simp only [Except.ok.injEq, Prod.mk.injEq] at h
      obtain ⟨h1, h2⟩ := h
      subst h2
      obtain ⟨i, b, _, hle, hnx, hdesc, hopt, hsc⟩ := createInstanceF_alloc hp s d stk created s1 heq
      exact ⟨by change s.nextId ≤ s1.nextId; omega, hdesc, hopt, hsc⟩

theorem scopeResolveScopedF_inv {prev : ResolveFn} (hp : ResolveInv prev) (s : DIState)
    (scopeId : Nat) (d : ServiceDescriptor) (stk : List String) (res : Resolved) (s' : DIState)
    (h : scopeResolveScopedF prev s scopeId d stk = .ok (res, s')) :
    s.nextId ≤ s'.nextId ∧ s'.descriptors = s.descriptors ∧ s'.options = s.options ∧
    ∀ i, (mapFind s.scopes i).isSome = true → (mapFind s'.scopes i).isSome = true := by
  simp only [scopeResolveScopedF] at h
  split at h
  · exact absurd h (by simp)
  · rename_i sc hsc
    split at h
    · simp only [Except.ok.injEq, Prod.mk.injEq] at h
      obtain ⟨h1, h2⟩ := h
      subst h2
      exact ⟨Nat.le_refl _, rfl, rfl, fun _ hx => hx⟩
    · split at h
      · exact absurd h (by simp)
      · rename_i created s1 heq
        simp only [Except.ok.injEq, Prod.mk.injEq] at h
        obtain ⟨h1, h2⟩ := h
        obtain ⟨i, b, _, hle, hnx, hdesc, hopt, hscope⟩ :=
          createInstanceF_alloc hp s d stk created s1 heq
        subst h2
        refine ⟨by change s.nextId ≤ s1.nextId; omega, ?_, ?_, ?_⟩
        · simpa [updateScope] using hdesc
        · simpa [updateScope] using hopt
        · intro j hj
          simp only [updateScope, mapFind_updateAList_isSome]
          exact hscope j hj

theorem provResolveScopedF_inv {prev : ResolveFn} (hp : ResolveInv prev) (s : DIState)
    (d : ServiceDescriptor) (stk : List String) (res : Resolved) (s' : DIState)
    (h : provResolveScopedF prev s d stk = .ok (res, s')) :
    s.nextId ≤ s'.nextId ∧ s'.descriptors = s.descriptors ∧ s'.options = s.options ∧
    ∀ i, (mapFind s.scopes i).isSome = true → (mapFind s'.scopes i).isSome = true := by
  simp only [provResolveScopedF] at h
  split at h
  · split at h
    · obtain ⟨i, b, _, hle, hnx, hdesc, hopt, hscope⟩ :=
        createInstanceF_alloc hp s d stk res s' h
      exact ⟨Nat.le_trans hle (by omega), hdesc, hopt, hscope⟩
    · exact absurd h (by simp)
  · rename_i ctx hctx
    split at h
    · rename_i scopeId href
      exact scopeResolveScopedF_inv hp s scopeId d stk res s' h
    · rename_i href
      have h2 := scopeResolveScopedF_inv hp _ s.nextScopeId d stk res s' h
      refine ⟨h2.1, h2.2.1, h2.2.2.1, fun i hi => h2.2.2.2 i ?_⟩
      exact mapFind_mapSet_isSome s.scopes s.nextScopeId i freshScopeState hi

theorem resolveInternalF_inv {prev : ResolveFn} (hp : ResolveInv prev) :
    ResolveInv (resolveInternalF prev) := by
  intro s identifier stack res s' h
  simp only [resolveInternalF] at h
  split at h
  · exact absurd h (by simp)
  · split at h
    · exact absurd h (by simp)
    · rename_i d hd
      split at h
      · exact resolveSingletonF_inv hp s d stack res s' h
      · exact provResolveScopedF_inv hp s d stack res s' h
      · obtain ⟨i, b, _, hle, hnx, hdesc, hopt, hscope⟩ :=
          createInstanceF_alloc hp s d stack res s' h
        exact ⟨Nat.le_trans hle (by omega), hdesc, hopt, hscope⟩

theorem resolveFuel_inv : ∀ fuel, ResolveInv (resolveFuel fuel) := by
  intro fuel
  induction fuel with
  | zero =>
    intro s identifier stack res s' h
    exact absurd h (by simp [resolveFuel])
  | succ n ih =>
    intro s identifier stack res s' h
    exact resolveInternalF_inv ih s identifier stack res s' h

theorem scopeResolveScopedF_hit (prev : ResolveFn) (s : DIState) (scopeId : Nat)
    (d : ServiceDescriptor) (stk : List String) (sc : ScopeState) (v : Resolved)
    (hsc : mapFind s.scopes scopeId = some sc)
    (hv : mapFind sc.scopedCache (getServiceKey d.serviceIdentifier) = some v) :
    scopeResolveScopedF prev s scopeId d stk = .ok (v, s) := by
  simp only [scopeResolveScopedF, hsc, hv]

theorem scopeResolveScopedF_cached {prev : ResolveFn} (hp : ResolveInv prev) (s : DIState)
    (scopeId : Nat) (d : ServiceDescriptor) (stk : List String) (res : Resolved) (s' : DIState)
    (h : scopeResolveScopedF prev s scopeId d stk = .ok (res, s')) :
    ∃ sc', mapFind s'.scopes scopeId = some sc' ∧
      mapFind sc'.scopedCache (getServiceKey d.serviceIdentifier) = some res := by
  simp only [scopeResolveScopedF] at h
  split at h
  · exact absurd h (by simp)
  · rename_i sc hsc
    split at h
    · rename_i v hv
      simp only [Except.ok.injEq, Prod.mk.injEq] at h
      obtain ⟨h1, h2⟩ := h
      subst h2
      exact ⟨sc, hsc, by rw [hv, h1]⟩
    · rename_i hv
      split at h
      · exact absurd h (by simp)
      · rename_i created s1 heq
        simp only [Except.ok.injEq, Prod.mk.injEq] at h
        obtain ⟨h1, h2⟩ := h
        obtain ⟨i, b, hres, hle, hnx, hdesc, hopt, hscope⟩ :=
          createInstanceF_alloc hp s d stk created s1 heq
        have hdom : (mapFind s1.scopes scopeId).isSome = true :=
          hscope scopeId (by rw [hsc]; rfl)
        obtain ⟨sc1, hsc1⟩ := Option.isSome_iff_exists.mp hdom
        subst h2
        subst h1
        by_cases hdisp : isDisposable created = true
        · refine ⟨ScopeState.mk
            (mapSet sc1.scopedCache (getServiceKey d.serviceIdentifier) created)
            sc1.disposed
            (sc1.disposables ++ [(created, getServiceKey d.serviceIdentifier)]), ?_, ?_⟩
          · show mapFind (updateAList s1.scopes scopeId _) scopeId = _
            rw [mapFind_updateAList_self, hsc1, Option.map_some']
            simp [hdisp]
          · exact mapFind_mapSet_self sc1.scopedCache _ created
        · simp only [Bool.not_eq_true] at hdisp
          refine ⟨ScopeState.mk
            (mapSet sc1.scopedCache (getServiceKey d.serviceIdentifier) created)
            sc1.disposed sc1.disposables, ?_, ?_⟩
          · show mapFind (updateAList s1.scopes scopeId _) scopeId = _
            rw [mapFind_updateAList_self, hsc1, Option.map_some']
            simp [hdisp]
          · exact mapFind_mapSet_self sc1.scopedCache _ created

theorem scopeResolveScopedF_miss_alloc {prev : ResolveFn} (hp : ResolveInv prev)
    (s : DIState) (scopeId : Nat) (d : ServiceDescriptor) (stk : List String)
    (res : Resolved) (s' : DIState) (sc : ScopeState)
    (hsc : mapFind s.scopes scopeId = some sc)
    (hmiss : mapFind sc.scopedCache (getServiceKey d.serviceIdentifier) = none)
    (h : scopeResolveScopedF prev s scopeId d stk = .ok (res, s')) :
    ∃ i b, res = .inst i b ∧ s.nextId ≤ i ∧ s'.nextId = i + 1 := by
  simp only [scopeResolveScopedF, hsc, hmiss] at h
  split at h
  · exact absurd h (by simp)
  · rename_i created s1 heq
    simp only [Except.ok.injEq, Prod.mk.injEq] at h
    obtain ⟨h1, h2⟩ := h
    obtain ⟨i, b, hres, hle, hnx, _, _, _⟩ := createInstanceF_alloc hp s d stk created s1 heq
    subst h2
    subst h1
    exact ⟨i, b, hres, hle, by change s1.nextId = i + 1; exact hnx⟩

theorem validateDependencyScopes_ok (descs : List (ServiceKey × ServiceDescriptor))
    (d : ServiceDescriptor) : ∀ (deps : List ServiceIdentifier) (stk : List String),
    validateDependencyScopes descs d deps stk = .ok () →
    ∀ dep ∈ deps, ∀ depD, mapFind descs (getServiceKey dep) = some depD →
      canDependOn d.lifetime depD.lifetime = true := by
  intro deps
  induction deps with
  | nil =>
    intro stk h dep hdep
    simp at hdep
  | cons x rest ih =>
    intro stk h dep hdep depD hfind
    simp only [validateDependencyScopes] at h
    split at h
    · rename_i hx
      rcases List.mem_cons.mp hdep with heq | hmem
      · subst heq
        rw [hx] at hfind
        exact absurd hfind (by simp)
      · exact ih stk h dep hmem depD hfind
    · rename_i xD hx
      split at h
      · rename_i hc
        rcases List.mem_cons.mp hdep with heq | hmem
        · subst heq
          rw [hx] at hfind
          injection hfind with h2
          subst h2
          exact hc
        · exact ih stk h dep hmem depD hfind
      · exact absurd h (by simp)

theorem validateDependencyScopes_error (descs : List (ServiceKey × ServiceDescriptor))
    (d : ServiceDescriptor) : ∀ (deps : List ServiceIdentifier) (stk : List String)
    (e : JSError), validateDependencyScopes descs d deps stk = .error e →
    ∃ dep depD, dep ∈ deps ∧ mapFind descs (getServiceKey dep) = some depD ∧
      canDependOn d.lifetime depD.lifetime = false ∧
      e = .ScopeMismatch d.serviceIdentifier dep d.lifetime depD.lifetime stk := by
  intro deps
  induction deps with
  | nil =>
    intro stk e h
    simp [validateDependencyScopes] at h
  | cons x rest ih =>
    intro stk e h
    simp only [validateDependencyScopes] at h
    split at h
    · rename_i hx
      obtain ⟨dep, depD, h1, h2, h3, h4⟩ := ih stk e h
      exact ⟨dep, depD, List.mem_cons_of_mem x h1, h2, h3, h4⟩
    · rename_i xD hx
      split at h
      · rename_i hc
        obtain ⟨dep, depD, h1, h2, h3, h4⟩ := ih stk e h
        exact ⟨dep, depD, List.mem_cons_of_mem x h1, h2, h3, h4⟩
      · rename_i hc
        simp only [Bool.not_eq_true] at hc
        simp only [Except.error.injEq] at h
        exact ⟨x, xD, List.mem_cons_self x rest, hx, hc, h.symm⟩

theorem validateScopeDependenciesAux_ok (full : List (ServiceKey × ServiceDescriptor)) :
    ∀ (l : List (ServiceKey × ServiceDescriptor)),
    validateScopeDependenciesAux full l = .ok () →
    ∀ k d, (k, d) ∈ l → ∀ c, d.implementationType = some c →
      validateDependencyScopes full d c.inject [] = .ok () := by
  intro l
  induction l with
  | nil =>
    intro h k d hmem
    simp at hmem
  | cons p rest ih =>
    intro h k d hmem c hc
    obtain ⟨pk, pd⟩ := p
    simp only [validateScopeDependenciesAux] at h
    rcases List.mem_cons.mp hmem with heq | hmem2
    · have hd : d = pd := by
        have := congrArg Prod.snd heq
        simpa using this
      subst hd
      simp only [hc] at h
      split at h
      · exact absurd h (by simp)
      · rename_i u heq2
        cases u
        exact heq2
    · split at h
      · rename_i c' himpl
        split at h
        · exact absurd h (by simp)
        · exact ih h k d hmem2 c hc
      · exact ih h k d hmem2 c hc

theorem validateScopeDependenciesAux_error (full : List (ServiceKey × ServiceDescriptor)) :
    ∀ (l : List (ServiceKey × ServiceDescriptor)) (e : JSError),
    validateScopeDependenciesAux full l = .error e →
    ∃ k d c, (k, d) ∈ l ∧ d.implementationType = some c ∧
      validateDependencyScopes full d c.inject [] = .error e := by
  intro l
  induction l with
  | nil =>
    intro e h
    simp [validateScopeDependenciesAux] at h
  | cons p rest ih =>
    intro e h
    obtain ⟨pk, pd⟩ := p
    simp only [validateScopeDependenciesAux] at h
    split at h
    · rename_i c himpl
      split at h
      · rename_i e2 heq2
        simp only [Except.error.injEq] at h
        subst h
        exact ⟨pk, pd, c, List.mem_cons_self _ _, himpl, heq2⟩
      · obtain ⟨k, d, c2, h1, h2, h3⟩ := ih e h
        exact ⟨k, d, c2, List.mem_cons_of_mem _ h1, h2, h3⟩
    · obtain ⟨k, d, c2, h1, h2, h3⟩ := ih e h
      exact ⟨k, d, c2, List.mem_cons_of_mem _ h1, h2, h3⟩

theorem setDefinedEntries_has_false (k : String) :
    ∀ (entries data : List (String × JSValue)),
    mapHas data k = false → (∀ v, (k, v) ∈ entries → v = JSValue.undef) →
    mapHas (setDefinedEntries data entries) k = false := by
  intro entries
  induction entries with
  | nil =>
    intro data h1 h2
    exact h1
  | cons p rest ih =>
    intro data h1 h2
    obtain ⟨k', v⟩ := p
    simp only [setDefinedEntries]
    by_cases hv : v = JSValue.undef
    · rw [if_neg (by simp [hv])]
      exact ih data h1 (fun w hw => h2 w (List.mem_cons_of_mem _ hw))
    · have hk : k' ≠ k := by
        intro hkk
        subst hkk
        exact hv (h2 v (List.mem_cons_self _ _))
      rw [if_pos (by simpa using hv)]
      refine ih _ ?_ (fun w hw => h2 w (List.mem_cons_of_mem _ hw))
      rw [mapHas, mapFind_mapSet_ne _ _ _ _ hk]
      exact h1

/-- C1: for an identifier registered Scoped, a second `resolveScoped` call
against the same `ScopedContainer` returns the pointer-identical instance
without touching the allocator (first conjunct, for any recursion budget
of the second call), while resolutions against the fresh scopes of two
different `run` invocations (both scopes start with an empty cache for the
key) return distinct instances (second conjunct). -/
theorem scoped_same_scope_identical_distinct_runs_distinct
    (fuel fuel' : Nat) (s : DIState) (scopeA scopeB : Nat)
    (d : ServiceDescriptor) (stack stack' : List String)
    (res res' : Resolved) (s1 s2 : DIState)
    (hlt : d.lifetime = ServiceLifetime.Scoped)
    (h1 : scopeResolveScoped fuel s scopeA d stack = .ok (res, s1)) :
    (∀ (g : Nat) (stk : List String), scopeResolveScoped g s1 scopeA d stk = .ok (res, s1)) ∧
    ((∀ scA, mapFind s.scopes scopeA = some scA →
        mapFind scA.scopedCache (getServiceKey d.serviceIdentifier) = none) →
      (∀ scB, mapFind s1.scopes scopeB = some scB →
        mapFind scB.scopedCache (getServiceKey d.serviceIdentifier) = none) →
      scopeResolveScoped fuel' s1 scopeB d stack' = .ok (res', s2) →
      res ≠ res') := by
  constructor
  · intro g stk
    obtain ⟨sc', hfind, hcache⟩ :=
      scopeResolveScopedF_cached (resolveFuel_inv fuel) s scopeA d stack res s1 h1
    exact scopeResolveScopedF_hit (resolveFuel g) s1 scopeA d stk sc' res hfind hcache
  · intro hmissA hmissB h2
    cases hfA : mapFind s.scopes scopeA with
    | none =>
      simp [scopeResolveScoped, scopeResolveScopedF, hfA] at h1
    | some scA0 =>
      obtain ⟨iA, bA, hresA, hleA, hnxA⟩ :=
        scopeResolveScopedF_miss_alloc (resolveFuel_inv fuel) s scopeA d stack res s1 scA0
          hfA (hmissA scA0 hfA) h1
      cases hfB : mapFind s1.scopes scopeB with
      | none =>
        simp [scopeResolveScoped, scopeResolveScopedF, hfB] at h2
      | some scB0 =>
        obtain ⟨iB, bB, hresB, hleB, hnxB⟩ :=
          scopeResolveScopedF_miss_alloc (resolveFuel_inv fuel') s1 scopeB d stack' res' s2 scB0
            hfB (hmissB scB0 hfB) h2
        subst hresA
        subst hresB
        intro hcontra
        injection hcontra with hi hb
        omega

/-- Fixture for C1: the class implementing the Scoped service `Symbol(A)`. -/
def c1impl : ConstructorSpec :=
  { name := "A", inject := [], disposable := false, ctorThrows := none }

/-- Fixture for C1: the Scoped class descriptor. -/
def c1d : ServiceDescriptor := createClassDescriptor (.sym 1 "A") .Scoped c1impl

/-- Fixture for C1: the provider state right after build, inside a `run`
with two fresh scopes (ids 0 and 1, as created by two `run` invocations). -/
def c1s0 : DIState :=
  { descriptors := [(.symK 1, c1d)],
    options := { validateScopes := true, eagerSingletons := false,
                 allowScopedWithoutScope := false },
    singletonCache := [(.symK 1000, .providerSelf), (.symK 1001, .scopeFactory)],
    nextId := 0,
    scopes := [(0, freshScopeState), (1, freshScopeState)],
    nextScopeId := 2,
    ambient := some { scopeRef := some 0 },
    disposed := false }

/-- Fixture for C1: the state after resolving `Symbol(A)` in scope 0. -/
def c1s1 : DIState :=
  { c1s0 with
    nextId := 1
    scopes := [(0, ScopeState.mk [(.symK 1, .inst 0 false)] false []),
               (1, freshScopeState)] }

/-- Fixture for C1: the state after additionally resolving in scope 1. -/
def c1s2 : DIState :=
  { c1s1 with
    nextId := 2
    scopes := [(0, ScopeState.mk [(.symK 1, .inst 0 false)] false []),
               (1, ScopeState.mk [(.symK 1, .inst 1 false)] false [])] }

/-- Witness for C1 at a concrete registry: a repeated resolution in scope 0
returns the identical instance and state, and scope 1's instance is a
different object. -/
theorem scoped_same_scope_identical_distinct_runs_distinct_witness :
    scopeResolveScoped 7 c1s1 0 c1d [] = .ok (.inst 0 false, c1s1) ∧
    (Resolved.inst 0 false) ≠ (Resolved.inst 1 false) := by
  have h := scoped_same_scope_identical_distinct_runs_distinct 2 3 c1s0 0 1 c1d [] []
    (.inst 0 false) (.inst 1 false) c1s1 c1s2 rfl (by rfl)
  refine ⟨h.1 7 [], h.2 ?_ ?_ (by rfl)⟩
  · intro scA hscA
    have h0 : mapFind c1s0.scopes 0 = some freshScopeState := rfl
    rw [h0] at hscA
    injection hscA with h3
    subst h3
    rfl
  · intro scB hscB
    have h0 : mapFind c1s1.scopes 1 = some freshScopeState := rfl
    rw [h0] at hscB
    injection hscB with h3
    subst h3
    rfl

/-- C2: `ScopedContainer.dispose` releases the tracked disposable
instances in strictly reverse creation order — the invocation sequence is
exactly the reverse of the `disposables` list, which `resolveScoped`
builds in creation order — and a second `dispose` call is a no-op: it
invokes nothing and leaves the state unchanged. -/
theorem scope_dispose_reverse_order_idempotent
    (s : DIState) (scopeId : Nat) (sc : ScopeState)
    (hfind : mapFind s.scopes scopeId = some sc)
    (hnd : sc.disposed = false)
    (hall : ∀ e ∈ sc.disposables, isDisposable e.1 = true) :
    (disposeScope s scopeId).1 = (sc.disposables.map Prod.fst).reverse ∧
    disposeScope (disposeScope s scopeId).2 scopeId = ([], (disposeScope s scopeId).2) := by
  have hcalls : sc.disposables.reverse.filterMap
      (fun entry => if isDisposable entry.1 then some entry.1 else none) =
      (sc.disposables.map Prod.fst).reverse := by
    rw [filterMap_all_some _ Prod.fst _
      (fun x hx => by rw [if_pos (hall x (List.mem_reverse.mp hx))])]
    exact (List.map_reverse Prod.fst sc.disposables).symm ▸ rfl
  have hmain : disposeScope s scopeId =
      ((sc.disposables.map Prod.fst).reverse,
        updateScope s scopeId (fun sc' =>
          { sc' with disposed := true, scopedCache := [], disposables := [] })) := by
    simp only [disposeScope, hfind, hnd, Bool.false_eq_true, if_false]
    rw [hcalls]
  constructor
  · rw [hmain]
  · rw [hmain]
    simp only [disposeScope, updateScope, mapFind_updateAList_self, hfind, Option.map_some']
    exact if_pos trivial

/-- Fixture for C2: a scope that created two disposable instances, the
instance with id 0 first and the instance with id 1 second. -/
def c2sc : ScopeState :=
  { scopedCache := [(.symK 1, .inst 0 true), (.symK 2, .inst 1 true)]
    disposed := false
    disposables := [(.inst 0 true, .symK 1), (.inst 1 true, .symK 2)] }

/-- Fixture for C2: a provider state holding that scope. -/
def c2s : DIState :=
  { descriptors := []
    options := { validateScopes := true, eagerSingletons := false,
                 allowScopedWithoutScope := false }
    singletonCache := []
    nextId := 2
    scopes := [(0, c2sc)]
    nextScopeId := 1
    ambient := none
    disposed := false }

/-- Witness for C2: disposing the concrete scope invokes `dispose()` on
instance 1 before instance 0 (reverse creation order), and a second
`dispose` invokes nothing and changes nothing. -/
theorem scope_dispose_reverse_order_idempotent_witness :
    (disposeScope c2s 0).1 = [.inst 1 true, .inst 0 true] ∧
    disposeScope (disposeScope c2s 0).2 0 = ([], (disposeScope c2s 0).2) := by
  have h := scope_dispose_reverse_order_idempotent c2s 0 c2sc rfl rfl (by decide)
  exact ⟨h.1, h.2⟩

/-- Fixture for C3: the token `Symbol(X)` registered via
`addScopedFactory(X, f)` with `f` throwing `"boom"`, resolved inside an
active scope. -/
def c3X : ServiceIdentifier := .sym 2 "X"

/-- Fixture for C3: provider state for the throwing-factory scenario. -/
def c3sBoom : DIState :=
  { descriptors := [(.symK 2, createFactoryDescriptor c3X .Scoped
      { deps := [], fail := some "boom", disposable := false })]
    options := { validateScopes := true, eagerSingletons := false,
                 allowScopedWithoutScope := false }
    singletonCache := [(.symK 1000, .providerSelf), (.symK 1001, .scopeFactory)]
    nextId := 0
    scopes := [(0, freshScopeState)]
    nextScopeId := 1
    ambient := some { scopeRef := some 0 }
    disposed := false }

/-- Fixture for C3: `Symbol(Y)` registered as a Scoped class whose
constructor throws `"ctor-boom"`. -/
def c3Y : ServiceIdentifier := .sym 3 "Y"

/-- Fixture for C3: provider state for the throwing-constructor scenario. -/
def c3sCtor : DIState :=
  { descriptors := [(.symK 3, createClassDescriptor c3Y .Scoped
      { name := "Y", inject := [], disposable := false, ctorThrows := some "ctor-boom" })]
    options := { validateScopes := true, eagerSingletons := false,
                 allowScopedWithoutScope := false }
    singletonCache := [(.symK 1000, .providerSelf), (.symK 1001, .scopeFactory)]
    nextId := 0
    scopes := [(0, freshScopeState)]
    nextScopeId := 1
    ambient := some { scopeRef := some 0 }
    disposed := false }

/-- Fixture for C3: `Symbol(Z)` registered via a factory that resolves the
unregistered `Symbol(W)`. -/
def c3Z : ServiceIdentifier := .sym 4 "Z"

/-- Fixture for C3: the unregistered dependency token. -/
def c3W : ServiceIdentifier := .sym 5 "W"

/-- Fixture for C3: provider state for the diagnostic-propagation
scenario. -/
def c3sDep : DIState :=
  { descriptors := [(.symK 4, createFactoryDescriptor c3Z .Scoped
      { deps := [c3W], fail := none, disposable := false })]
    options := { validateScopes := true, eagerSingletons := false,
                 allowScopedWithoutScope := false }
    singletonCache := [(.symK 1000, .providerSelf), (.symK 1001, .scopeFactory)]
    nextId := 0
    scopes := [(0, freshScopeState)]
    nextScopeId := 1
    ambient := some { scopeRef := some 0 }
    disposed := false }

/-- C3: any exception a factory or constructor throws during creation is
surfaced as `ServiceCreationError` carrying the original error as cause
and the resolution stack (the two general conjuncts, for both creation
paths), except that the four diagnostic errors are propagated unwrapped;
concretely, `addScopedFactory(X, f)` with `f` throwing `"boom"` resolves
to `CreationFailed` whose cause message is `"boom"`, a throwing
constructor behaves the same, and a `NotRegistered` raised inside a
factory escapes unwrapped. -/
theorem creation_errors_wrapped_diagnostics_unwrapped :
    (∀ (fuel : Nat) (s : DIState) (d : ServiceDescriptor) (f : FactorySpec)
        (stack : List String) (e : JSError),
      d.factory = some f →
      runFactoryF (resolveFuel fuel) s f
        (stack ++ [getServiceName d.serviceIdentifier]) = .error e →
      (isDiagnostic e = true → createInstance fuel s d stack = .error e) ∧
      (isDiagnostic e = false → createInstance fuel s d stack =
        .error (.CreationFailed d.serviceIdentifier e stack))) ∧
    (∀ (fuel : Nat) (s : DIState) (d : ServiceDescriptor) (c : ConstructorSpec)
        (stack : List String) (e : JSError),
      d.factory = none → d.implementationType = some c →
      createFromConstructorF (resolveFuel fuel) s c d
        (stack ++ [getServiceName d.serviceIdentifier]) = .error e →
      (isDiagnostic e = true → createInstance fuel s d stack = .error e) ∧
      (isDiagnostic e = false → createInstance fuel s d stack =
        .error (.CreationFailed d.serviceIdentifier e stack))) ∧
    resolveProvider 3 c3sBoom c3X = .error (.CreationFailed c3X (.error "boom") []) ∧
    resolveProvider 3 c3sCtor c3Y = .error (.CreationFailed c3Y (.error "ctor-boom") []) ∧
    resolveProvider 3 c3sDep c3Z = .error (.NotRegistered c3W ["Symbol(Z)"]) := by
  refine ⟨?_, ?_, by rfl, by rfl, by rfl⟩
  · intro fuel s d f stack e hf hrun
    constructor
    · intro hd
      simp only [createInstance, createInstanceF, hf, hrun, hd, if_true]
    · intro hd
      simp only [createInstance, createInstanceF, hf, hrun, hd, Bool.false_eq_true, if_false]
  · intro fuel s d c stack e hf hi hrun
    constructor
    · intro hd
      simp only [createInstance, createInstanceF, hf, hi, hrun, hd, if_true]
    · intro hd
      simp only [createInstance, createInstanceF, hf, hi, hrun, hd, Bool.false_eq_true, if_false]

/-- Witness for C3: the wrap clause applied at a concrete factory that
throws `"w"`. -/
theorem creation_errors_wrapped_diagnostics_unwrapped_witness :
    createInstance 1 c3sBoom
      (createFactoryDescriptor c3X .Scoped { deps := [], fail := some "w", disposable := false })
      [] = .error (.CreationFailed c3X (.error "w") []) := by
  exact (creation_errors_wrapped_diagnostics_unwrapped.1 1 c3sBoom
    (createFactoryDescriptor c3X .Scoped { deps := [], fail := some "w", disposable := false })
    { deps := [], fail := some "w", disposable := false } []
    (.error "w") rfl (by rfl)).2 rfl

/-- Fixture for C4: class `A` registered under its own constructor, whose
`static inject` names the string identifier `'A'` — an identifier with the
same service NAME but a different service KEY, and no descriptor. -/
def c4state : DIState :=
  { descriptors := [(.ctorK "A", createClassDescriptor (.ctorN "A") .Singleton
      { name := "A", inject := [.str "A"], disposable := false, ctorThrows := none })]
    options := { validateScopes := true, eagerSingletons := false,
                 allowScopedWithoutScope := false }
    singletonCache := [(.symK 1000, .providerSelf), (.symK 1001, .scopeFactory)]
    nextId := 0
    scopes := []
    nextScopeId := 0
    ambient := none
    disposed := false }

/-- C4 (evidence of the divergence): `resolveInternal` performs the
cycle check BEFORE the descriptor lookup, so resolving class `A` — whose
dependency is the UNREGISTERED string identifier `'A'` (second conjunct),
sharing only the name of the class already on the stack — fails with
`CircularDependencyError` instead of the `ServiceNotRegisteredError` that
the claim (and the resolution algorithm documented in
`service-provider.ts`'s own header: "1. Find descriptor, 2. Check for
circular dependency") prescribes. -/
theorem resolve_cycle_checked_before_descriptor_lookup :
    resolveProvider 3 c4state (.ctorN "A") =
      .error (.CircularDependency (.str "A") ["A"]) ∧
    mapFind c4state.descriptors (getServiceKey (.str "A")) = none := by
  exact ⟨by rfl, by rfl⟩

theorem createProvider_validation_error (fuel : Nat)
    (descs : List (ServiceKey × ServiceDescriptor)) (options : Option IBuildOptions)
    (e : JSError) (hval : (normalizeOptions options).validateScopes = true)
    (herr : validateScopeDependencies descs = .error e) :
    createProvider fuel descs options = .error e := by
  simp only [createProvider, hval, if_true, herr]

theorem createProvider_no_validation_ok (fuel : Nat)
    (descs : List (ServiceKey × ServiceDescriptor)) (options : Option IBuildOptions)
    (hval : (normalizeOptions options).validateScopes = false)
    (heager : (normalizeOptions options).eagerSingletons = false) :
    (createProvider fuel descs options).isOk = true := by
  simp only [createProvider, hval, heager, Bool.false_eq_true, if_false, Except.isOk,
    Except.toBool]

/-- Named for C5: the error is a `ScopeMismatchError` naming a dependent
and a dependency actually registered in the given registry, together with
their (incompatible) lifetimes. -/
def violationMismatch (descs : List (ServiceKey × ServiceDescriptor)) (e : JSError) : Prop :=
  ∃ k d c dep depD, (k, d) ∈ descs ∧ d.implementationType = some c ∧ dep ∈ c.inject ∧
    mapFind descs (getServiceKey dep) = some depD ∧
    canDependOn d.lifetime depD.lifetime = false ∧
    e = .ScopeMismatch d.serviceIdentifier dep d.lifetime depD.lifetime []

/-- C5: whenever a registry contains a class-based Singleton descriptor
statically declaring a Scoped dependency, building with
`validateScopes: true` fails (first conjunct), the raised error is a
`ScopeMismatchError` naming both services and both lifetimes of a real
violation (second conjunct), and the same registry built with
`validateScopes: false` completes without error (third conjunct). -/
theorem build_validate_scopes_mismatch (fuel : Nat)
    (descs : List (ServiceKey × ServiceDescriptor)) (k : ServiceKey)
    (d : ServiceDescriptor) (c : ConstructorSpec) (dep : ServiceIdentifier)
    (depD : ServiceDescriptor)
    (hmem : (k, d) ∈ descs) (hlt : d.lifetime = .Singleton)
    (himpl : d.implementationType = some c) (hdep : dep ∈ c.inject)
    (hfind : mapFind descs (getServiceKey dep) = some depD)
    (hdlt : depD.lifetime = .Scoped) :
    (createProvider fuel descs (some { validateScopes := some true })).isOk = false ∧
    (∀ e, createProvider fuel descs (some { validateScopes := some true }) = .error e →
      violationMismatch descs e) ∧
    (createProvider fuel descs (some { validateScopes := some false })).isOk = true := by
  have hbad : canDependOn d.lifetime depD.lifetime = false := by
    rw [hlt, hdlt]
    rfl
  have hnotok : validateScopeDependencies descs ≠ .ok () := by
    intro hok
    have hgood := validateDependencyScopes_ok descs d c.inject []
      (validateScopeDependenciesAux_ok descs descs hok k d hmem c himpl) dep hdep depD hfind
    rw [hbad] at hgood
    exact Bool.noConfusion hgood
  cases hv : validateScopeDependencies descs with
  | ok u =>
    cases u
    exact absurd hv hnotok
  | error e0 =>
    have hprov := createProvider_validation_error fuel descs
      (some { validateScopes := some true }) e0 rfl hv
    refine ⟨by rw [hprov]; rfl, ?_, createProvider_no_validation_ok fuel descs
      (some { validateScopes := some false }) rfl rfl⟩
    intro e he
    rw [hprov] at he
    injection he with he2
    subst he2
    obtain ⟨k2, d2, c2, hm2, hi2, herr2⟩ :=
      validateScopeDependenciesAux_error descs descs e0 hv
    obtain ⟨dep2, depD2, hd1, hd2, hd3, hd4⟩ :=
      validateDependencyScopes_error descs d2 c2.inject [] e0 herr2
    exact ⟨k2, d2, c2, dep2, depD2, hm2, hi2, hd1, hd2, hd3, hd4⟩

/-- Fixture for C5: the Scoped dependency token. -/
def c5A : ServiceIdentifier := .sym 10 "IDatabase"

/-- Fixture for C5: the Singleton dependent token. -/
def c5B : ServiceIdentifier := .sym 11 "SingletonService"

/-- Fixture for C5: the Scoped implementation class. -/
def c5implA : ConstructorSpec :=
  { name := "PostgresDatabase", inject := [], disposable := false, ctorThrows := none }

/-- Fixture for C5: the Singleton class statically declaring the Scoped
dependency. -/
def c5implB : ConstructorSpec :=
  { name := "SingletonService", inject := [c5A], disposable := false, ctorThrows := none }

/-- Fixture for C5: the registry with the captive dependency. -/
def c5descs : List (ServiceKey × ServiceDescriptor) :=
  [(.symK 10, createClassDescriptor c5A .Scoped c5implA),
   (.symK 11, createClassDescriptor c5B .Singleton c5implB)]

/-- Witness for C5: the concrete Singleton-declares-Scoped registry fails
to build with `validateScopes: true` and builds with
`validateScopes: false`. -/
theorem build_validate_scopes_mismatch_witness :
    (createProvider 1 c5descs (some { validateScopes := some true })).isOk = false ∧
    (createProvider 1 c5descs (some { validateScopes := some false })).isOk = true := by
  have h := build_validate_scopes_mismatch 1 c5descs (.symK 11)
    (createClassDescriptor c5B .Singleton c5implB) c5implB c5A
    (createClassDescriptor c5A .Scoped c5implA)
    (by decide) rfl rfl (by decide) (by rfl) rfl
  exact ⟨h.1, h.2.2⟩

/-- Whether a resolution outcome is a thrown `ScopeMismatchError`. -/
def resultIsScopeMismatch : Except JSError (Resolved × DIState) → Bool
  | .error (.ScopeMismatch _ _ _ _ _) => true
  | _ => false

/-- C6 (amended): with `validateScopes` enabled, the construction-time
captive-dependency check runs only for class-based dependents — a class
descriptor whose `static inject` names a registered shorter-lived
dependency fails with `ScopeMismatchError` at `createInstance` time.
(Factory-created dependents get no such check; see the counterexample.) -/
theorem construction_time_check_class_based_only
    (prev : ResolveFn) (s : DIState) (d : ServiceDescriptor) (c : ConstructorSpec)
    (stack : List String) (dep : ServiceIdentifier) (depD : ServiceDescriptor)
    (hv : s.options.validateScopes = true)
    (hf : d.factory = none) (hi : d.implementationType = some c)
    (hdep : dep ∈ c.inject)
    (hfind : mapFind s.descriptors (getServiceKey dep) = some depD)
    (hbad : canDependOn d.lifetime depD.lifetime = false) :
    resultIsScopeMismatch (createInstanceF prev s d stack) = true := by
  have hnotok : validateDependencyScopes s.descriptors d c.inject
      (stack ++ [getServiceName d.serviceIdentifier]) ≠ .ok () := by
    intro hok
    have hgood := validateDependencyScopes_ok s.descriptors d c.inject _ hok dep hdep depD hfind
    rw [hbad] at hgood
    exact Bool.noConfusion hgood
  cases hval : validateDependencyScopes s.descriptors d c.inject
      (stack ++ [getServiceName d.serviceIdentifier]) with
  | ok u =>
    cases u
    exact absurd hval hnotok
  | error e =>
    obtain ⟨dep2, depD2, _, _, _, hshape⟩ :=
      validateDependencyScopes_error s.descriptors d c.inject _ e hval
    have hcfc : createFromConstructorF prev s c d
        (stack ++ [getServiceName d.serviceIdentifier]) = .error e := by
      simp only [createFromConstructorF, hv, if_true, hval]
    simp only [createInstanceF, hf, hi, hcfc]
    subst hshape
    rfl

/-- Fixture for C6: the Scoped dependency token. -/
def c6A : ServiceIdentifier := .sym 20 "IDatabase"

/-- Fixture for C6: the Singleton registered via a factory that resolves
the Scoped dependency at construction time. -/
def c6B : ServiceIdentifier := .sym 21 "SingletonFromFactory"

/-- Fixture for C6: provider state with `validateScopes: true`, an active
scope, a Scoped class under `c6A` and a Singleton FACTORY under `c6B`
whose factory resolves `c6A`. -/
def c6state : DIState :=
  { descriptors := [(.symK 20, createClassDescriptor c6A .Scoped
      { name := "PostgresDatabase", inject := [], disposable := false, ctorThrows := none }),
     (.symK 21, createFactoryDescriptor c6B .Singleton
      { deps := [c6A], fail := none, disposable := false })]
    options := { validateScopes := true, eagerSingletons := false,
                 allowScopedWithoutScope := false }
    singletonCache := [(.symK 1000, .providerSelf), (.symK 1001, .scopeFactory)]
    nextId := 0
    scopes := [(0, freshScopeState)]
    nextScopeId := 1
    ambient := some { scopeRef := some 0 }
    disposed := false }

/-- Counterexample for C6: resolving the Singleton factory service whose
factory resolves a Scoped dependency succeeds — no `ScopeMismatchError`
is raised at construction time for factory-created dependents, contrary
to the claim. -/
theorem singleton_factory_resolving_scoped_no_mismatch :
    resultIsScopeMismatch (resolveProvider 3 c6state c6B) = false ∧
    (resolveProvider 3 c6state c6B).isOk = true := by
  exact ⟨by rfl, by rfl⟩

/-- Fixture for the C6 witness: a class-based Singleton with the same
Scoped dependency, which IS checked at construction time. -/
def c6wC : ConstructorSpec :=
  { name := "BadSingleton", inject := [c6A], disposable := false, ctorThrows := none }

/-- Fixture for the C6 witness: its descriptor. -/
def c6wD : ServiceDescriptor := createClassDescriptor (.sym 22 "BadSingleton") .Singleton c6wC

/-- Fixture for the C6 witness: provider state registering both. -/
def c6wS : DIState :=
  { c6state with
    descriptors := [(.symK 20, createClassDescriptor c6A .Scoped
      { name := "PostgresDatabase", inject := [], disposable := false, ctorThrows := none }),
     (.symK 22, c6wD)] }

/-- Witness for C6 (amended): the class-based construction-time check
fires on a concrete Singleton class declaring a Scoped dependency. -/
theorem construction_time_check_class_based_only_witness :
    resultIsScopeMismatch (createInstanceF (resolveFuel 1) c6wS c6wD []) = true := by
  exact construction_time_check_class_based_only (resolveFuel 1) c6wS c6wD c6wC [] c6A
    (createClassDescriptor c6A .Scoped
      { name := "PostgresDatabase", inject := [], disposable := false, ctorThrows := none })
    rfl rfl rfl (by decide) (by rfl) rfl

theorem createEagerSingletonsAux_descriptors (fuel : Nat) :
    ∀ (l : List (ServiceKey × ServiceDescriptor)) (s s' : DIState),
    createEagerSingletonsAux fuel l s = .ok s' → s'.descriptors = s.descriptors := by
  intro l
  induction l with
  | nil =>
    intro s s' h
    simp only [createEagerSingletonsAux, Except.ok.injEq] at h
    rw [← h]
  | cons p rest ih =>
    intro s s' h
    obtain ⟨pk, pd⟩ := p
    simp only [createEagerSingletonsAux] at h
    split at h
    · split at h
      · exact absurd h (by simp)
      · rename_i r s1 heq
        have h1 := resolveSingletonF_inv (resolveFuel_inv fuel) s pd [] r s1 heq
        rw [ih s1 s' h, h1.2.1]
    · exact ih s s' h

theorem createProvider_ok_descriptors (fuel : Nat)
    (descs : List (ServiceKey × ServiceDescriptor)) (options : Option IBuildOptions)
    (s : DIState) (h : createProvider fuel descs options = .ok s) :
    s.descriptors = descs := by
  simp only [createProvider] at h
  split at h
  · exact absurd h (by simp)
  · split at h
    · simp only [createEagerSingletons] at h
      exact createEagerSingletonsAux_descriptors fuel _ _ s h
    · simp only [Except.ok.injEq] at h
      rw [← h]

/-- C7 (amended): once `build()` seals the collection, `register` (hence
every `add*` method), `remove` and `clear` fail with
`ContainerSealedError` before touching the registry, while `has`,
`getDescriptor` and `getDescriptors` remain callable and answer from the
sealed registry unchanged; the built provider observes exactly the
descriptor set present at build time. -/
theorem sealed_collection_surface (sc : ServiceCollection) (options : Option IBuildOptions)
    (fuel : Nat) :
    ((sc.build options fuel).1.sealedFlag = true) ∧
    (∀ d, (sc.build options fuel).1.register d = .error .ContainerSealed) ∧
    (∀ identifier impl,
      (sc.build options fuel).1.addSingleton identifier impl = .error .ContainerSealed) ∧
    (∀ identifier impl,
      (sc.build options fuel).1.addScoped identifier impl = .error .ContainerSealed) ∧
    (∀ identifier impl,
      (sc.build options fuel).1.addTransient identifier impl = .error .ContainerSealed) ∧
    (∀ identifier f,
      (sc.build options fuel).1.addSingletonFactory identifier f = .error .ContainerSealed) ∧
    (∀ identifier f,
      (sc.build options fuel).1.addScopedFactory identifier f = .error .ContainerSealed) ∧
    (∀ identifier f,
      (sc.build options fuel).1.addTransientFactory identifier f = .error .ContainerSealed) ∧
    (∀ identifier,
      (sc.build options fuel).1.remove identifier = .error .ContainerSealed) ∧
    ((sc.build options fuel).1.clear = .error .ContainerSealed) ∧
    (∀ identifier, (sc.build options fuel).1.has identifier = sc.has identifier) ∧
    (∀ identifier,
      (sc.build options fuel).1.getDescriptor identifier = sc.getDescriptor identifier) ∧
    ((sc.build options fuel).1.getDescriptors = sc.getDescriptors) ∧
    (∀ s, (sc.build options fuel).2 = .ok s → s.descriptors = sc.descriptors) := by
  refine ⟨rfl, fun d => rfl, fun i impl => rfl, fun i impl => rfl, fun i impl => rfl,
    fun i f => rfl, fun i f => rfl, fun i f => rfl, fun i => rfl, rfl,
    fun i => rfl, fun i => rfl, rfl, fun s h => ?_⟩
  exact createProvider_ok_descriptors fuel sc.descriptors options s h

/-- Fixture for C7: a singleton registration. -/
def c7ILogger : ServiceIdentifier := .sym 30 "ILogger"

/-- Fixture for C7: its implementation class. -/
def c7impl : ConstructorSpec :=
  { name := "ConsoleLogger", inject := [], disposable := false, ctorThrows := none }

/-- Fixture for C7: a collection with one registration, not yet sealed. -/
def c7sc : ServiceCollection :=
  { descriptors := [(.symK 30, createClassDescriptor c7ILogger .Singleton c7impl)],
    sealedFlag := false }

/-- Counterexample for C7: after `build()` seals the collection, `has`
returns `true` and `getDescriptor` returns the descriptor — both calls
succeed instead of failing with `ContainerSealedError` as the claim
states for the whole utility surface. -/
theorem has_getDescriptor_succeed_after_seal :
    (ServiceCollection.build c7sc none 1).1.has c7ILogger = true ∧
    (ServiceCollection.build c7sc none 1).1.getDescriptor c7ILogger =
      some (createClassDescriptor c7ILogger .Singleton c7impl) := by
  exact ⟨by rfl, by rfl⟩

/-- Witness for C7 (amended): the sealed surface at the concrete
collection. -/
theorem sealed_collection_surface_witness :
    (ServiceCollection.build c7sc none 1).1.clear = .error .ContainerSealed ∧
    (ServiceCollection.build c7sc none 1).1.remove c7ILogger = .error .ContainerSealed ∧
    (ServiceCollection.build c7sc none 1).1.has c7ILogger = c7sc.has c7ILogger := by
  obtain ⟨h1, h2, h3, h4, h5, h6, h7, h8, h9, h10, h11, h12, h13, h14⟩ :=
    sealed_collection_surface c7sc none 1
  exact ⟨h10, h9 c7ILogger, h11 c7ILogger⟩

/-- C8: on a not-yet-cancelled context, `cancel()` invokes exactly the
registered callbacks, in registration order (first conjunct), sets the
cancelled flag (second), and a second `cancel()` invokes no callbacks and
returns the state unchanged (third); the invocation list is
duplicate-free whenever the registered set is (fourth) — and it always
is, because `onCancel` deduplicates: registering a new callback appends
it once (fifth) and re-registering an already-registered callback changes
nothing (sixth); a callback whose invocation throws is still in the
invocation sequence, so later callbacks still run (seventh). -/
theorem cancel_invokes_each_callback_once_in_order (s : ContextStore)
    (hnc : s.cancelled = false) :
    (cancel s).1 = s.cancelCallbacks ∧
    (cancel s).2.cancelled = true ∧
    cancel (cancel s).2 = ([], (cancel s).2) ∧
    (s.cancelCallbacks.Nodup → (cancel s).1.Nodup) ∧
    (∀ cb, cb ∉ s.cancelCallbacks →
      (onCancel s cb).2.cancelCallbacks = s.cancelCallbacks ++ [cb]) ∧
    (∀ cb, cb ∈ s.cancelCallbacks →
      (onCancel s cb).2.cancelCallbacks = s.cancelCallbacks) ∧
    (∀ cb, cb ∈ s.cancelCallbacks → cb.cbThrows = true → cb ∈ (cancel s).1) := by
  have hc : cancel s =
      (s.cancelCallbacks, { s with cancelled := true, cancelCallbacks := [] }) := by
    simp [cancel, hnc]
  refine ⟨by rw [hc], by rw [hc], ?_, ?_, ?_, ?_, ?_⟩
  · rw [hc]
    rfl
  · intro hnd
    rw [hc]
    exact hnd
  · intro cb hcb
    simp only [onCancel, hnc, Bool.false_eq_true, if_false]
    rw [if_neg hcb]
  · intro cb hcb
    simp only [onCancel, hnc, Bool.false_eq_true, if_false]
    rw [if_pos hcb]
  · intro cb hcb _
    rw [hc]
    exact hcb

/-- Fixture for C8: a non-throwing callback. -/
def c8cb1 : CancelCallback := { cbId := 1, cbThrows := false }

/-- Fixture for C8: a throwing callback registered after it. -/
def c8cb2 : CancelCallback := { cbId := 2, cbThrows := true }

/-- Fixture for C8: a live context with both callbacks registered. -/
def c8s : ContextStore :=
  { data := [], cancelCallbacks := [c8cb1, c8cb2], cancelled := false }

/-- Witness for C8: cancelling the concrete context invokes both
callbacks in registration order, a second cancel is a no-op, and
re-registering an existing callback does not duplicate it. -/
theorem cancel_invokes_each_callback_once_in_order_witness :
    (cancel c8s).1 = [c8cb1, c8cb2] ∧
    cancel (cancel c8s).2 = ([], (cancel c8s).2) ∧
    (onCancel c8s c8cb1).2.cancelCallbacks = [c8cb1, c8cb2] := by
  obtain ⟨h1, h2, h3, h4, h5, h6, h7⟩ := cancel_invokes_each_callback_once_in_order c8s rfl
  exact ⟨h1, h3, h6 c8cb1 (by decide)⟩

/-- C9: for a provider built (with the default lazy singletons) from a
registry with no explicit registration under `SERVICE_PROVIDER_TOKEN` or
`SERVICE_SCOPE_FACTORY_TOKEN`, resolving either token fails with
`ServiceNotRegisteredError` (first two conjuncts) even though the
constructor pre-seeded the singleton cache with the provider itself and
the scope-factory object under exactly those keys (last two conjuncts):
`resolveInternal` looks the descriptor up before `resolveSingleton` ever
consults the cache, so the seeded entries are unreachable through
`resolve`. -/
theorem provider_token_cache_unreachable (fuel fuel2 : Nat)
    (descs : List (ServiceKey × ServiceDescriptor)) (options : Option IBuildOptions)
    (s : DIState)
    (hcreate : createProvider fuel descs options = .ok s)
    (heager : (normalizeOptions options).eagerSingletons = false)
    (hp : mapFind descs (getServiceKey SERVICE_PROVIDER_TOKEN) = none)
    (hf : mapFind descs (getServiceKey SERVICE_SCOPE_FACTORY_TOKEN) = none) :
    resolveProvider fuel2 s SERVICE_PROVIDER_TOKEN =
      .error (.NotRegistered SERVICE_PROVIDER_TOKEN []) ∧
    resolveProvider fuel2 s SERVICE_SCOPE_FACTORY_TOKEN =
      .error (.NotRegistered SERVICE_SCOPE_FACTORY_TOKEN []) ∧
    mapFind s.singletonCache (getServiceKey SERVICE_PROVIDER_TOKEN) = some .providerSelf ∧
    mapFind s.singletonCache (getServiceKey SERVICE_SCOPE_FACTORY_TOKEN) =
      some .scopeFactory := by
  simp only [createProvider] at hcreate
  split at hcreate
  · exact absurd hcreate (by simp)
  · simp only [heager, Bool.false_eq_true, if_false, Except.ok.injEq] at hcreate
    subst hcreate
    refine ⟨?_, ?_, by rfl, by rfl⟩
    · simp only [resolveProvider, resolveInternal, resolveInternalF, hp]
      rfl
    · simp only [resolveProvider, resolveInternal, resolveInternalF, hf]
      rfl

/-- Fixture for C9: the provider built from an empty registry with
default options. -/
def c9s : DIState :=
  { descriptors := []
    options := { validateScopes := true, eagerSingletons := false,
                 allowScopedWithoutScope := false }
    singletonCache := [(.symK 1000, .providerSelf), (.symK 1001, .scopeFactory)]
    nextId := 0
    scopes := []
    nextScopeId := 0
    ambient := none
    disposed := false }

/-- Witness for C9: on the empty registry, resolving the provider token
yields `NotRegistered` while the cache entry for that very key is the
provider itself. -/
theorem provider_token_cache_unreachable_witness :
    resolveProvider 1 c9s SERVICE_PROVIDER_TOKEN =
      .error (.NotRegistered SERVICE_PROVIDER_TOKEN []) ∧
    mapFind c9s.singletonCache (getServiceKey SERVICE_PROVIDER_TOKEN) =
      some .providerSelf := by
  have h := provider_token_cache_unreachable 1 1 [] none c9s (by rfl) rfl rfl rfl
  exact ⟨h.1, h.2.2.1⟩

/-- C10: entries bound to `undefined` are treated asymmetrically —
`run`'s initial data drops them (a key bound only to `undefined` is
absent, first conjunct), `setAll` and `clone`'s merge skip them (a key
not already present stays absent, second and third conjuncts), whereas
the instance `set(key, undefined)` stores the entry, so `has` reports
`true` (fourth conjunct) while `get` on a typed key with a declared
default falls back to that default (fifth conjunct). -/
theorem undefined_entries_dropped_but_set_stores :
    (∀ (init : List (String × JSValue)) (k : String),
      (∀ v, (k, v) ∈ init → v = JSValue.undef) →
      ctxHas (createContextStore init) (.strKey k) = false) ∧
    (∀ (s : ContextStore) (entries : List (String × JSValue)) (k : String),
      ctxHas s (.strKey k) = false →
      (∀ v, (k, v) ∈ entries → v = JSValue.undef) →
      ctxHas (ctxSetAll s entries) (.strKey k) = false) ∧
    (∀ (s : ContextStore) (extra : List (String × JSValue)) (k : String),
      ctxHas s (.strKey k) = false →
      (∀ v, (k, v) ∈ extra → v = JSValue.undef) →
      ctxHas (ctxClone s extra) (.strKey k) = false) ∧
    (∀ (s : ContextStore) (key : CtxKey),
      ctxHas (ctxSet s key JSValue.undef) key = true) ∧
    (∀ (s : ContextStore) (id : String) (d : JSValue),
      ctxGet (ctxSet s (.typed id (some d)) JSValue.undef) (.typed id (some d)) = d) := by
  refine ⟨?_, ?_, ?_, ?_, ?_⟩
  · intro init k hall
    exact setDefinedEntries_has_false k init [] rfl hall
  · intro s entries k hk hall
    exact setDefinedEntries_has_false k entries s.data hk hall
  · intro s extra k hk hall
    exact setDefinedEntries_has_false k extra s.data hk hall
  · intro s key
    simp [ctxHas, ctxSet, mapHas, mapFind_mapSet_self]
  · intro s id d
    simp [ctxGet, ctxSet, resolveKeyId, mapFind_mapSet_self]

/-- Witness for C10: an initial binding to `undefined` is dropped, while
an instance `set` of `undefined` stores the entry and a typed key's
declared default is returned by `get`. -/
theorem undefined_entries_dropped_but_set_stores_witness :
    ctxHas (createContextStore [("a", JSValue.undef)]) (.strKey "a") = false ∧
    ctxHas (ctxSet (createContextStore []) (.strKey "a") JSValue.undef) (.strKey "a") = true ∧
    ctxGet (ctxSet (createContextStore []) (.typed "t" (some (.num 5))) JSValue.undef)
      (.typed "t" (some (.num 5))) = .num 5 := by
  obtain ⟨h1, h2, h3, h4, h5⟩ := undefined_entries_dropped_but_set_stores
  refine ⟨h1 [("a", JSValue.undef)] "a" ?_, h4 (createContextStore []) (.strKey "a"),
    h5 (createContextStore []) "t" (.num 5)⟩
  intro v hv
  simp only [List.mem_singleton, Prod.mk.injEq] at hv
  exact hv.2
